import Mathlib

/-!
Verification development for the Enphase Envoy reader core
(custom_components/enphase_envoy_custom/envoy_reader.py).

The Python module is shallowly embedded: JSON documents become an inductive
type over rationals and strings, an httpx response becomes a record holding
its status code, raw text and the result of its json() parse, Python
exceptions become an error type threaded through Except, and the mutable
EnvoyReader object becomes an explicit state record transformed by pure
step functions (one per update method, with network fetch results passed in
as oracle arguments, since the state that a successful fetch stores is the
response itself).
-/

namespace Envoy

/-- Python exception classes that the embedded code can raise.
UnboundLocalError is folded into nameError (its superclass). -/
inductive PyErr where
  | keyError
  | indexError
  | typeError
  | attributeError
  | valueError
  | jsonDecodeError
  | runtimeError
  | nameError
  | overflowError
  deriving Repr, DecidableEq

/-- A parsed JSON document.  Numbers are modelled as rationals (Python
floats/ints; dyadic values such as 1.25 are exact). -/
inductive Json where
  | num (q : ℚ)
  | str (s : String)
  | bool (b : Bool)
  | null
  | arr (xs : List Json)
  | obj (fields : List (String × Json))

/-- An httpx response as cached by the reader: status code, raw text and
the outcome of calling .json() on it (error () = JSONDecodeError). -/
structure Response where
  status_code : Nat
  text : String
  body : Except Unit Json

/-- Values returned by the metric accessors: Python ints, floats, strings,
None, raw JSON subtrees, or the inverter dictionary serial -> [watts,
formatted report time]. -/
inductive PyVal where
  | vint (i : ℤ)
  | vfloat (q : ℚ)
  | vstr (s : String)
  | vnone
  | vjson (j : Json)
  | vdict (entries : List (Json × Json × String))

/-- The three phase selectors accepted by the phase-scoped accessors. -/
inductive Phase where
  | l1
  | l2
  | l3
  deriving Repr, DecidableEq

/-- phase_map = {"l1": 0, "l2": 1, "l3": 2} -/
def phaseIdx : Phase → Nat
  | .l1 => 0
  | .l2 => 1
  | .l3 => 2

/-- The report argument of _meters_report_value / _meters_readings_value. -/
inductive Report where
  | production
  | netConsumption
  | totalConsumption
  deriving Repr, DecidableEq

/-- report_map of _meters_report_value:
production 0, net-consumption 1, total-consumption 2. -/
def reportIdxReports : Report → Nat
  | .production => 0
  | .netConsumption => 1
  | .totalConsumption => 2

/-- report_map of _meters_readings_value:
production 0, net-consumption 1, total-consumption 1. -/
def reportIdxReadings : Report → Nat
  | .production => 0
  | .netConsumption => 1
  | .totalConsumption => 1

/-- Python == on JSON values (structural, with True == 1 numeric/bool
cross-equality as in Python; mixed types compare unequal, never raise). -/
def jsonEqb : Json → Json → Bool
  | .num a, .num b => a = b
  | .num a, .bool b => a = (cond b 1 0)
  | .bool a, .num b => (cond a 1 0 : ℚ) = b
  | .str a, .str b => a = b
  | .bool a, .bool b => a = b
  | .null, .null => true
  | .arr a, .arr b => jsonEqbList a b
  | .obj a, .obj b => jsonEqbObj a b
  | _, _ => false
where
  jsonEqbList : List Json → List Json → Bool
    | [], [] => true
    | x :: xs, y :: ys => jsonEqb x y && jsonEqbList xs ys
    | _, _ => false
  jsonEqbObj : List (String × Json) → List (String × Json) → Bool
    | [], [] => true
    | (k1, v1) :: xs, (k2, v2) :: ys => k1 = k2 && jsonEqb v1 v2 && jsonEqbObj xs ys
    | _, _ => false

/-- Lookup of a string key in a parsed JSON object field list
(first binding wins, as produced by a JSON parser). -/
def objLookup (k : String) : List (String × Json) → Option Json
  | [] => none
  | (k2, v) :: rest => if k2 = k then some v else objLookup k rest

/-- Python j["k"] subscripting with a string key: KeyError when the key is
absent from a dict, TypeError when j is not a dict (list indices must be
integers; numbers, strings, None are not subscriptable by a string). -/
def jsonGetKey (j : Json) (k : String) : Except PyErr Json :=
  match j with
  | .obj fs =>
    match objLookup k fs with
    | some v => .ok v
    | none => .error .keyError
  | _ => .error .typeError

/-- Python j[i] subscripting with a non-negative integer: list indexing
(IndexError when out of range), string indexing yields a one-character
string, dicts raise KeyError (no integer keys occur in our parsed
documents), everything else raises TypeError. -/
def jsonGetIdx (j : Json) (i : Nat) : Except PyErr Json :=
  match j with
  | .arr xs =>
    match xs.get? i with
    | some v => .ok v
    | none => .error .indexError
  | .obj _ => .error .keyError
  | .str s =>
    match s.data.get? i with
    | some c => .ok (.str (String.mk [c]))
    | none => .error .indexError
  | _ => .error .typeError

/-- Python iteration over a JSON value: lists yield elements, dicts yield
their keys, strings yield one-character strings, everything else raises
TypeError (not iterable). -/
def pyIter (j : Json) : Except PyErr (List Json) :=
  match j with
  | .arr xs => .ok xs
  | .obj fs => .ok (fs.map (fun f => Json.str f.fst))
  | .str s => .ok (s.data.map (fun c => Json.str (String.mk [c])))
  | _ => .error .typeError

/-- Whether a JSON value may be used as a Python dict key
(lists and dicts are unhashable). -/
def jsonHashable : Json → Bool
  | .arr _ => false
  | .obj _ => false
  | _ => true

/-- Python int() truncation toward zero of a rational. -/
def pyInt (q : ℚ) : ℤ := Int.tdiv q.num (q.den : ℤ)

/-- Auxiliary: a string consisting only of ASCII digits, nonempty. -/
def allDigits (cs : List Char) : Bool :=
  match cs with
  | [] => false
  | _ => cs.all (fun c => c.isDigit)

/-- Digits to a natural number. -/
def digitsToNat (cs : List Char) : Nat :=
  cs.foldl (fun acc c => acc * 10 + (c.toNat - 48)) 0

/-- Python int(x) on a JSON value: floats truncate toward zero, bools map
to 0/1, strings must spell an optionally-signed integer (else ValueError),
anything else raises TypeError.  The string branch models only the plain
digit forms; Python additionally accepts a leading plus sign, surrounding
whitespace and digit-group underscores, none of which occur in the
payload fields the judged accessors convert (all numeric). -/
def pyIntOfJson : Json → Except PyErr ℤ
  | .num q => .ok (pyInt q)
  | .bool b => .ok (cond b 1 0)
  | .str s =>
    match s.data with
    | '-' :: rest => if allDigits rest then .ok (-(digitsToNat rest : ℤ)) else .error .valueError
    | cs => if allDigits cs then .ok ((digitsToNat cs : ℤ)) else .error .valueError
  | _ => .error .typeError

/-- Parse the digit strings captured by the legacy scrape regexes
(shape \d+ or \d+.\d+) into an exact rational. -/
def parseAmount (s : String) : ℚ :=
  match s.data.span (fun c => c.isDigit) with
  | (intPart, []) => (digitsToNat intPart : ℚ)
  | (intPart, _ :: fracPart) =>
    mkRat (digitsToNat intPart * 10 ^ fracPart.length + digitsToNat fracPart) (10 ^ fracPart.length)

/-- Python float(str(x)) as applied by pf/voltage/frequency/current
accessors: numbers round-trip exactly; digit strings parse; everything
else raises ValueError.  The string branch models only plain decimal
forms; Python's float() additionally accepts signs, exponents, inf/nan
and surrounding whitespace, but every judged theorem reaches this
function with a numeric argument (or not at all). -/
def floatOfJson : Json → Except PyErr ℚ
  | .num q => .ok q
  | .str s =>
    match s.data.span (fun c => c.isDigit) with
    | ([], _) => .error .valueError
    | (_, []) => .ok (parseAmount s)
    | (_, '.' :: fracPart) => if allDigits fracPart then .ok (parseAmount s) else .error .valueError
    | _ => .error .valueError
  | _ => .error .valueError

end Envoy

namespace Envoy

/-- ENVOY_MODEL_S = "PC" (production and consumption, Envoy model S). -/
def ENVOY_MODEL_S : String := "PC"

/-- ENVOY_MODEL_C = "P" (production only, Envoy model C). -/
def ENVOY_MODEL_C : String := "P"

/-- ENVOY_MODEL_LEGACY = "P0" (older Envoy model C, no json pages). -/
def ENVOY_MODEL_LEGACY : String := "P0"

/-- The mutable fields of an EnvoyReader instance that the embedded
methods read or write.  Timestamps are integers (seconds); phase counts
are stored as rationals since they are read straight out of a JSON
document. -/
structure ReaderState where
  endpoint_type : Option String
  has_grid_status : Bool
  isProductionMeteringEnabled : Bool
  isConsumptionMeteringEnabled : Bool
  net_consumption_meters_type : Bool
  production_meters_phase_count : ℚ
  consumption_meters_phase_count : ℚ
  endpoint_meters_json_results : Option Response
  endpoint_meters_reports_json_results : Option Response
  endpoint_meters_readings_json_results : Option Response
  endpoint_production_json_results : Option Response
  endpoint_production_v1_results : Option Response
  endpoint_production_results : Option Response
  endpoint_production_inverters : Option Response
  endpoint_ensemble_json_results : Option Response
  endpoint_home_json_results : Option Response
  endpoint_home_results : Option Response
  endpoint_info_results : Option Response
  meters_next_refresh_time : ℤ
  info_next_refresh_time : ℤ
  info_refresh_buffer_seconds : ℤ
  get_inverters : Bool
  do_not_use_production_json : Bool
  fetch_retries : ℤ

def message_battery_not_available : String :=
  "Battery storage data not available for your Envoy device."

def message_production_not_available : String :=
  "CTs production data not available for your Envoy device."

def message_consumption_not_available : String :=
  "CTs consumption data not available for your Envoy device."

def message_pf_not_available : String :=
  "Power Factor data not available for your Envoy device."

def message_voltage_not_available : String :=
  "Voltage data not available for your Envoy device."

def message_frequency_not_available : String :=
  "Frequency data not available for your Envoy device."

def message_current_consumption_not_available : String :=
  "Amps consumption data not available for your Envoy device."

def message_current_production_not_available : String :=
  "Amps production data not available for your Envoy device."

/-- The stored retry count computed by EnvoyReader.__init__:
self._fetch_retries = max(fetch_retries, 1). -/
def storedFetchRetries (fetch_retries : ℤ) : ℤ := max fetch_retries 1

/-- .json() on a cached endpoint attribute: AttributeError when the
attribute is None (None.json()), JSONDecodeError when the text does not
parse. -/
def getJson (o : Option Response) : Except PyErr Json :=
  match o with
  | none => .error .attributeError
  | some r =>
    match r.body with
    | .ok j => .ok j
    | .error _ => .error .jsonDecodeError

/-- has_production_metering_setup(json): json[0]["state"] == "enabled". -/
def has_production_metering_setup (j : Json) : Except PyErr Bool := do
  let v ← jsonGetIdx j 0
  let s ← jsonGetKey v ("state")
  pure (jsonEqb s (.str ("enabled")))

/-- has_consumption_metering_setup(json): json[1]["state"] == "enabled". -/
def has_consumption_metering_setup (j : Json) : Except PyErr Bool := do
  let v ← jsonGetIdx j 1
  let s ← jsonGetKey v ("state")
  pure (jsonEqb s (.str ("enabled")))

/-- has_net_consumption_meters_type(json):
json[1]["measurementType"] == "net-consumption". -/
def has_net_consumption_meters_type (j : Json) : Except PyErr Bool := do
  let v ← jsonGetIdx j 1
  let s ← jsonGetKey v ("measurementType")
  pure (jsonEqb s (.str ("net-consumption")))

/-- get_production_meters_phase_count(json): json[0]["phaseCount"].
The state stores the count as a rational because every later use is a
numeric comparison; a non-numeric phaseCount is therefore reported as
the TypeError those comparisons would raise, at resolve time rather
than at the later comparison where Python would raise it (Python stores
the raw value first).  No judged claim exercises a non-numeric
phaseCount. -/
def get_production_meters_phase_count (j : Json) : Except PyErr ℚ := do
  let v ← jsonGetIdx j 0
  let c ← jsonGetKey v ("phaseCount")
  match c with
  | .num q => pure q
  | .bool b => pure (cond b 1 0)
  | _ => .error .typeError

/-- get_consumption_meters_phase_count(json): json[1]["phaseCount"]. -/
def get_consumption_meters_phase_count (j : Json) : Except PyErr ℚ := do
  let v ← jsonGetIdx j 1
  let c ← jsonGetKey v ("phaseCount")
  match c with
  | .num q => pure q
  | .bool b => pure (cond b 1 0)
  | _ => .error .typeError

/-- The five sequential capability-field assignments of
_update_meters_endpoint, with Python in-place mutation semantics: when an
assignment raises, the fields already assigned keep their new values and
the error propagates. -/
def resolveMeterFields (st : ReaderState) (j : Json) (now : ℤ) :
    ReaderState × Option PyErr :=
  match has_production_metering_setup j with
  | .error e => (st, some e)
  | .ok b1 =>
    let st1 := { st with isProductionMeteringEnabled := b1 }
    match has_consumption_metering_setup j with
    | .error e => (st1, some e)
    | .ok b2 =>
      let st2 := { st1 with isConsumptionMeteringEnabled := b2 }
      match has_net_consumption_meters_type j with
      | .error e => (st2, some e)
      | .ok b3 =>
        let st3 := { st2 with net_consumption_meters_type := b3 }
        match get_production_meters_phase_count j with
        | .error e => (st3, some e)
        | .ok q1 =>
          let st4 := { st3 with production_meters_phase_count := q1 }
          match get_consumption_meters_phase_count j with
          | .error e => (st4, some e)
          | .ok q2 =>
            ({ st4 with
                consumption_meters_phase_count := q2
                meters_next_refresh_time := now + st.info_refresh_buffer_seconds },
              none)

/-- _update_from_meters_reports_endpoint followed by
_update_from_meters_readings_endpoint: both only store their fetched
response when the reader is confirmed as Envoy model S. -/
def updateMetersSubEndpoints (st : ReaderState)
    (reportsResp readingsResp : Option Response) : ReaderState :=
  let st1 :=
    if st.endpoint_type = some ENVOY_MODEL_S then
      { st with endpoint_meters_reports_json_results := reportsResp }
    else st
  if st1.endpoint_type = some ENVOY_MODEL_S then
    { st1 with endpoint_meters_readings_json_results := readingsResp }
  else st1

/-- _update_meters_endpoint: when the CT-configuration refresh interval has
elapsed, fetch ivp/meters (the oracle argument metersResp is the stored
result of that fetch), and unless the body text is the literal "[]",
resolve the five capability fields and advance the next-refresh time; then
refresh the meters reports/readings endpoints.  An exception raised while
resolving propagates (second component) and skips the sub-endpoint
refreshes. -/
def metersRefreshStep (st : ReaderState) (now : ℤ)
    (metersResp : Option Response) : ReaderState × Option PyErr :=
  if st.meters_next_refresh_time ≤ now then
    let stA := { st with endpoint_meters_json_results := metersResp }
    match metersResp with
    | some r =>
      if r.text ≠ "[]" then
        match r.body with
        | .error _ => (stA, some .jsonDecodeError)
        | .ok j => resolveMeterFields stA j now
      else (stA, none)
    | none => (stA, none)
  else (st, none)

/-- _update_meters_endpoint proper: the interval-gated CT-configuration
refresh, then the meters reports/readings refreshes (skipped when the
refresh raised). -/
def update_meters_endpoint (st : ReaderState) (now : ℤ)
    (metersResp reportsResp readingsResp : Option Response) :
    ReaderState × Option PyErr :=
  match metersRefreshStep st now metersResp with
  | (st1, some e) => (st1, some e)
  | (st1, none) => (updateMetersSubEndpoints st1 reportsResp readingsResp, none)

/-- _update_info_endpoint: fetch the info endpoint only when its
next-refresh time has elapsed, then advance it by
info_refresh_buffer_seconds.  The boolean reports whether a network fetch
was performed. -/
def update_info_endpoint (st : ReaderState) (now : ℤ)
    (infoResp : Option Response) : ReaderState × Bool :=
  if st.info_next_refresh_time ≤ now then
    ({ st with
        endpoint_info_results := infoResp
        info_next_refresh_time := now + st.info_refresh_buffer_seconds },
      true)
  else (st, false)

/-- _update_from_pc_endpoint: fetch production.json (unless suppressed and
not in detect mode), always fetch the ensemble inventory, and fetch
home.json only while has_grid_status is set.  The boolean reports whether
the home.json request was issued. -/
def update_from_pc_endpoint (st : ReaderState) (detectmode : Bool)
    (prodResp ensembleResp homeResp : Option Response) : ReaderState × Bool :=
  let st1 :=
    if ¬st.do_not_use_production_json ∨ detectmode then
      { st with endpoint_production_json_results := prodResp }
    else st
  let st2 := { st1 with endpoint_ensemble_json_results := ensembleResp }
  if st2.has_grid_status then
    ({ st2 with endpoint_home_json_results := homeResp }, true)
  else (st2, false)

/-- _update_from_p_endpoint: fetch api/v1/production. -/
def update_from_p_endpoint (st : ReaderState) (v1Resp : Option Response) :
    ReaderState :=
  { st with endpoint_production_v1_results := v1Resp }

/-- _update_from_p0_endpoint: fetch the legacy production and home pages. -/
def update_from_p0_endpoint (st : ReaderState)
    (prodResp homeResp : Option Response) : ReaderState :=
  { st with
      endpoint_production_results := prodResp
      endpoint_home_results := homeResp }

/-- _update: one poll cycle's endpoint refresh, dispatching on the detected
model.  Returns the new state, whether the home.json grid-status request
was issued, and a propagated exception (which aborts the rest of the
cycle) if any. -/
def update_all (st : ReaderState) (now : ℤ)
    (metersResp reportsResp readingsResp prodResp ensembleResp homeResp
      v1Resp p0ProdResp p0HomeResp infoResp : Option Response) :
    ReaderState × Bool × Option PyErr :=
  if st.endpoint_type = some ENVOY_MODEL_S then
    match update_meters_endpoint st now metersResp reportsResp readingsResp with
    | (st1, some e) => (st1, false, some e)
    | (st1, none) =>
      let pc := update_from_pc_endpoint st1 false prodResp ensembleResp homeResp
      let st3 :=
        if ¬pc.1.isProductionMeteringEnabled then
          update_from_p_endpoint pc.1 v1Resp
        else pc.1
      ((update_info_endpoint st3 now infoResp).1, pc.2, none)
  else
    let st2 :=
      if st.endpoint_type = some ENVOY_MODEL_C then
        update_from_p_endpoint st v1Resp
      else st
    let st3 :=
      if st.endpoint_type = some ENVOY_MODEL_LEGACY then
        update_from_p0_endpoint st2 p0ProdResp p0HomeResp
      else st2
    ((update_info_endpoint st3 now infoResp).1, false, none)

/-- grid_status(): return home_json["enpower"]["grid_status"] when present
in a cached 200 response; in every other non-raising case clear
has_grid_status and return None.  A JSON parse error or a non-dict shape
raises before the flag assignment is reached. -/
def grid_status (st : ReaderState) : ReaderState × Except PyErr PyVal :=
  let cleared : ReaderState × Except PyErr PyVal :=
    ({ st with has_grid_status := false }, .ok .vnone)
  if st.has_grid_status then
    match st.endpoint_home_json_results with
    | some r =>
      if r.status_code = 200 then
        match r.body with
        | .error _ => (st, .error .jsonDecodeError)
        | .ok j =>
          match j with
          | .obj fs =>
            match objLookup ("enpower") fs with
            | some env =>
              match env with
              | .obj efs =>
                match objLookup ("grid_status") efs with
                | some v => (st, .ok (.vjson v))
                | none => cleared
              | _ => (st, .error .attributeError)
            | none => cleared
          | _ => (st, .error .attributeError)
      else cleared
    | none => cleared
  else cleared

end Envoy

namespace Envoy

/-- The availability gate of _meters_report_value: Envoy model S, and the
requested report is backed by an installed CT (net-consumption needs the
consumption CT in net mode; production needs the production CT;
total-consumption needs any consumption CT). -/
def reportsGate (st : ReaderState) (report : Report) : Prop :=
  st.endpoint_type = some ENVOY_MODEL_S ∧
    ((report = .netConsumption ∧ st.isConsumptionMeteringEnabled = true ∧
        st.net_consumption_meters_type = true) ∨
      (report = .production ∧ st.isProductionMeteringEnabled = true) ∨
      (report = .totalConsumption ∧ st.isConsumptionMeteringEnabled = true))

instance (st : ReaderState) (report : Report) : Decidable (reportsGate st report) := by
  unfold reportsGate
  infer_instance

/-- The phase gate shared by both meters helpers: production reports use
the production CT phase count, all others the consumption CT phase
count, and the phase index must fall below a phase count larger than 1. -/
def phaseGate (st : ReaderState) (report : Report) (p : Phase) : Prop :=
  (st.production_meters_phase_count > 1 ∧
      (phaseIdx p : ℚ) < st.production_meters_phase_count ∧ report = .production) ∨
    (st.consumption_meters_phase_count > 1 ∧
      (phaseIdx p : ℚ) < st.consumption_meters_phase_count ∧ report ≠ .production)

instance (st : ReaderState) (report : Report) (p : Phase) :
    Decidable (phaseGate st report p) := by
  unfold phaseGate
  infer_instance

/-- _meters_report_value(field, report, phase): extract a value from the
cached ivp/meters/reports payload.  The system (phase=None) lookup lets
lookup errors propagate; the per-phase lookup catches KeyError and
IndexError and yields None. -/
def meters_report_value (st : ReaderState) (field : String) (report : Report)
    (phase : Option Phase) : Except PyErr (Option Json) :=
  if reportsGate st report then
    match st.endpoint_meters_reports_json_results with
    | some r =>
      match r.body with
      | .error _ => .error .jsonDecodeError
      | .ok j =>
        match phase with
        | none => do
          let a ← jsonGetIdx j (reportIdxReports report)
          let c ← jsonGetKey a ("cumulative")
          let v ← jsonGetKey c field
          pure (some v)
        | some p =>
          if phaseGate st report p then
            match (do
              let a ← jsonGetIdx j (reportIdxReports report)
              let l ← jsonGetKey a ("lines")
              let e ← jsonGetIdx l (phaseIdx p)
              jsonGetKey e field : Except PyErr Json) with
            | .ok v => .ok (some v)
            | .error .keyError => .ok none
            | .error .indexError => .ok none
            | .error e => .error e
          else .ok none
    | none => .ok none
  else .ok none

/-- The availability gate of _meters_readings_value: as reportsGate, except
that total-consumption additionally requires the consumption CT to be in
load-only (not net) mode. -/
def readingsGate (st : ReaderState) (report : Report) : Prop :=
  st.endpoint_type = some ENVOY_MODEL_S ∧
    ((report = .netConsumption ∧ st.isConsumptionMeteringEnabled = true ∧
        st.net_consumption_meters_type = true) ∨
      (report = .production ∧ st.isProductionMeteringEnabled = true) ∨
      (report = .totalConsumption ∧ st.isConsumptionMeteringEnabled = true ∧
        st.net_consumption_meters_type = false))

instance (st : ReaderState) (report : Report) : Decidable (readingsGate st report) := by
  unfold readingsGate
  infer_instance

/-- _meters_readings_value(field, report, phase): extract a value from the
cached ivp/meters/readings payload.  Both the system lookup and the
per-phase channels lookup catch KeyError and IndexError. -/
def meters_readings_value (st : ReaderState) (field : String) (report : Report)
    (phase : Option Phase) : Except PyErr (Option Json) :=
  if readingsGate st report then
    match st.endpoint_meters_readings_json_results with
    | some r =>
      match r.body with
      | .error _ => .error .jsonDecodeError
      | .ok j =>
        match phase with
        | none =>
          match (do
            let a ← jsonGetIdx j (reportIdxReadings report)
            jsonGetKey a field : Except PyErr Json) with
          | .ok v => .ok (some v)
          | .error .keyError => .ok none
          | .error .indexError => .ok none
          | .error e => .error e
        | some p =>
          if phaseGate st report p then
            match (do
              let a ← jsonGetIdx j (reportIdxReadings report)
              let l ← jsonGetKey a ("channels")
              let e ← jsonGetIdx l (phaseIdx p)
              jsonGetKey e field : Except PyErr Json) with
            | .ok v => .ok (some v)
            | .error .keyError => .ok none
            | .error .indexError => .ok none
            | .error e => .error e
          else .ok none
    | none => .ok none
  else .ok none

end Envoy

namespace Envoy

/-- Python \s (whitespace class, ASCII range). -/
def wsChar (c : Char) : Bool :=
  c = ' ' || c = '\t' || c = '\n' || c = '\r' || c = '\x0b' || c = '\x0c'

/-- Match a literal character sequence, returning the remainder. -/
def chompLit : List Char → List Char → Option (List Char)
  | [], cs => some cs
  | _ :: _, [] => none
  | l :: ls, c :: cs => if l = c then chompLit ls cs else none

/-- \s* : drop the maximal whitespace run (the regexes always follow it by
a non-whitespace required character, so the greedy run never backtracks). -/
def dropWs : List Char → List Char
  | [] => []
  | c :: cs => if wsChar c then dropWs cs else c :: cs

/-- \s+ : at least one whitespace character, then the maximal run. -/
def takeWs1 (cs : List Char) : Option (List Char) :=
  match cs with
  | [] => none
  | c :: rest => if wsChar c then some (dropWs rest) else none

/-- \d+ greedily: the maximal digit run and the remainder. -/
def takeDigits : List Char → List Char × List Char
  | [] => ([], [])
  | c :: cs =>
    if c.isDigit then
      let r := takeDigits cs
      (c :: r.1, r.2)
    else ([], c :: cs)

/-- Ordered alternation over unit literals (the alternatives start with
distinct characters, so first-match is the regex's backtracking result). -/
def matchUnit : List String → List Char → Option (String × List Char)
  | [], _ => none
  | u :: us, cs =>
    match chompLit u.data cs with
    | some rest => some (u, rest)
    | none => matchUnit us cs

/-- After the captured amount: \s* unit </td>, yielding (amount, unit). -/
def finishRow (units : List String) (amount : List Char) (cs : List Char) :
    Option (String × String) :=
  match matchUnit units (dropWs cs) with
  | none => none
  | some (u, rest) =>
    match chompLit (("</td>").data) rest with
    | some _ => some (String.mk amount, u)
    | none => none

/-- \s+<td>\s*(\d+|\d+\.\d+)\s*(unit alternation)</td> — the shared tail of
the legacy scrape regexes.  The ordered alternation (\d+|\d+\.\d+) is
deterministic here: after a proper prefix of the maximal digit run the
next character is a digit, which can start neither \s* followed by a unit
nor the literal dot plus fraction, so only the maximal run (optionally
extended by .digits) can complete the match. -/
def matchRowTail (units : List String) (cs : List Char) :
    Option (String × String) :=
  match takeWs1 cs with
  | none => none
  | some cs1 =>
    match chompLit (("<td>").data) cs1 with
    | none => none
    | some cs2 =>
      match takeDigits (dropWs cs2) with
      | ([], _) => none
      | (d1, rest) =>
        match finishRow units d1 rest with
        | some x => some x
        | none =>
          match rest with
          | '.' :: rest2 =>
            match takeDigits rest2 with
            | ([], _) => none
            | (d2, rest3) => finishRow units (d1 ++ '.' :: d2) rest3
          | _ => none

/-- DAY_PRODUCTION_REGEX matched at the current position. -/
def matchDayAt (cs : List Char) : Option (String × String) :=
  match chompLit (("<td>Today</td>").data) cs with
  | none => none
  | some rest => matchRowTail [("Wh"), ("kWh"), ("MWh")] rest

/-- re.search with DAY_PRODUCTION_REGEX: first position, scanning left to
right, at which the pattern matches. -/
def searchDay : List Char → Option (String × String)
  | [] => none
  | c :: rest =>
    match matchDayAt (c :: rest) with
    | some x => some x
    | none => searchDay rest

/-- Greedy .* (not matching a newline) followed by the continuation k,
backtracking from the longest consumed run as re does. -/
def dotStarThen (k : List Char → Option (String × String)) :
    List Char → Option (String × String)
  | [] => k []
  | c :: rest =>
    if c = '\n' then k (c :: rest)
    else
      match dotStarThen k rest with
      | some x => some x
      | none => k (c :: rest)

/-- The part of PRODUCTION_REGEX after .*: the literal </td> then the
shared row tail with units (W|kW|MW). -/
def prodTail (cs : List Char) : Option (String × String) :=
  match chompLit (("</td>").data) cs with
  | none => none
  | some rest => matchRowTail [("W"), ("kW"), ("MW")] rest

/-- PRODUCTION_REGEX matched at the current position. -/
def matchProdAt (cs : List Char) : Option (String × String) :=
  match chompLit (("<td>Currentl").data) cs with
  | none => none
  | some rest => dotStarThen prodTail rest

/-- re.search with PRODUCTION_REGEX. -/
def searchProd : List Char → Option (String × String)
  | [] => none
  | c :: rest =>
    match matchProdAt (c :: rest) with
    | some x => some x
    | none => searchProd rest

/-- The energy unit scaling of daily_production's legacy branch:
kWh multiplies by 1000, MWh by 1000000, anything else is taken as-is. -/
def scaleDaily (amount : ℚ) (unit : String) : ℚ :=
  if unit = "kWh" then amount * 1000
  else if unit = "MWh" then amount * 1000000
  else amount

/-- The power unit scaling of production's legacy branch.  The source
compares the captured unit against "mW" (lower-case m), which the
capture group (W|kW|MW) can never produce, so a megawatt reading is
taken as-is; the comparison is embedded exactly as written. -/
def scaleProd (amount : ℚ) (unit : String) : ℚ :=
  if unit = "kW" then amount * 1000
  else if unit = "mW" then amount * 1000000
  else amount

/-- int(x) wrapped as an accessor result. -/
def intVal (v : Json) : Except PyErr PyVal :=
  match pyIntOfJson v with
  | .error e => .error e
  | .ok i => .ok (.vint i)

/-- float(str(x)) wrapped as an accessor result. -/
def floatVal (v : Json) : Except PyErr PyVal :=
  match floatOfJson v with
  | .error e => .error e
  | .ok q => .ok (.vfloat q)

/-- production_phase(phase): per-phase power production from the meters
reports payload (the not-available sentinel reuses the consumption
message, exactly as the source does). -/
def production_phase (st : ReaderState) (phase : Option Phase) :
    Except PyErr PyVal :=
  match meters_report_value st ("currW") .production phase with
  | .error e => .error e
  | .ok none =>
    .ok (match phase with
      | none => .vstr message_consumption_not_available
      | some _ => .vnone)
  | .ok (some v) => intVal v

/-- production(phase): system or per-phase power production, dispatching
on the detected model. -/
def production (st : ReaderState) (phase : Option Phase) : Except PyErr PyVal :=
  match phase with
  | some p => production_phase st (some p)
  | none =>
    let valE : Except PyErr Json :=
      if st.endpoint_type = some ENVOY_MODEL_S then
        if st.isProductionMeteringEnabled then do
          let j ← getJson st.endpoint_meters_reports_json_results
          let a ← jsonGetIdx j 0
          let c ← jsonGetKey a ("cumulative")
          jsonGetKey c ("currW")
        else do
          let j ← getJson st.endpoint_production_json_results
          let p1 ← jsonGetKey j ("production")
          let e1 ← jsonGetIdx p1 0
          jsonGetKey e1 ("wNow")
      else if st.endpoint_type = some ENVOY_MODEL_C then do
        let j ← getJson st.endpoint_production_v1_results
        jsonGetKey j ("wattsNow")
      else if st.endpoint_type = some ENVOY_MODEL_LEGACY then
        match st.endpoint_production_results with
        | none => .error .attributeError
        | some r =>
          match searchProd r.text.data with
          | some (g1, g2) => .ok (.num (scaleProd (parseAmount g1) g2))
          | none => .error .runtimeError
      else .error .nameError
    match valE with
    | .error e => .error e
    | .ok v => intVal v

/-- consumption(phase): cumulative or per-phase power consumption from the
total-consumption meters report. -/
def consumption (st : ReaderState) (phase : Option Phase) : Except PyErr PyVal :=
  match meters_report_value st ("currW") .totalConsumption phase with
  | .error e => .error e
  | .ok none =>
    .ok (match phase with
      | none => .vstr message_consumption_not_available
      | some _ => .vnone)
  | .ok (some v) => intVal v

/-- net_consumption(phase): instantaneous demand from the net-consumption
meters readings. -/
def net_consumption (st : ReaderState) (phase : Option Phase) :
    Except PyErr PyVal :=
  match meters_readings_value st ("instantaneousDemand") .netConsumption phase with
  | .error e => .error e
  | .ok none =>
    .ok (match phase with
      | none => .vstr message_consumption_not_available
      | some _ => .vnone)
  | .ok (some v) => intVal v

/-- daily_production_phase(phase): per-phase daily energy from
production.json, None whenever the phase gate fails (in particular for a
phase index at or beyond the configured phase count, where no payload
access happens at all). -/
def daily_production_phase (st : ReaderState) (p : Phase) : Except PyErr PyVal :=
  if st.endpoint_type = some ENVOY_MODEL_S ∧
      st.isProductionMeteringEnabled = true ∧
      st.production_meters_phase_count > 1 ∧
      (phaseIdx p : ℚ) < st.production_meters_phase_count ∧
      st.do_not_use_production_json = false then
    match getJson st.endpoint_production_json_results with
    | .error e => .error e
    | .ok j =>
      match (do
        let p1 ← jsonGetKey j ("production")
        let e1 ← jsonGetIdx p1 1
        let l ← jsonGetKey e1 ("lines")
        let e2 ← jsonGetIdx l (phaseIdx p)
        jsonGetKey e2 ("whToday") : Except PyErr Json) with
      | .ok v => intVal v
      | .error .keyError => .ok .vnone
      | .error .indexError => .ok .vnone
      | .error e => .error e
  else .ok .vnone

/-- daily_production(phase): system or per-phase daily energy production. -/
def daily_production (st : ReaderState) (phase : Option Phase) :
    Except PyErr PyVal :=
  match phase with
  | some p => daily_production_phase st p
  | none =>
    if st.endpoint_type = some ENVOY_MODEL_S ∧
        st.isProductionMeteringEnabled = true then
      if st.do_not_use_production_json then
        .ok (.vstr message_production_not_available)
      else
        match (do
          let j ← getJson st.endpoint_production_json_results
          let p1 ← jsonGetKey j ("production")
          let e1 ← jsonGetIdx p1 1
          jsonGetKey e1 ("whToday") : Except PyErr Json) with
        | .error e => .error e
        | .ok v => intVal v
    else if st.endpoint_type = some ENVOY_MODEL_C ∨
        (st.endpoint_type = some ENVOY_MODEL_S ∧
          st.isProductionMeteringEnabled = false) then
      match (do
        let j ← getJson st.endpoint_production_v1_results
        jsonGetKey j ("wattHoursToday") : Except PyErr Json) with
      | .error e => .error e
      | .ok v => intVal v
    else if st.endpoint_type = some ENVOY_MODEL_LEGACY then
      match st.endpoint_production_results with
      | none => .error .attributeError
      | some r =>
        match searchDay r.text.data with
        | some (g1, g2) => intVal (.num (scaleDaily (parseAmount g1) g2))
        | none => .error .runtimeError
    else .error .nameError

/-- daily_consumption_phase(phase): per-phase daily energy consumption
from production.json, None whenever the phase gate fails. -/
def daily_consumption_phase (st : ReaderState) (p : Phase) : Except PyErr PyVal :=
  if st.endpoint_type = some ENVOY_MODEL_S ∧
      st.isConsumptionMeteringEnabled = true ∧
      st.consumption_meters_phase_count > 1 ∧
      (phaseIdx p : ℚ) < st.consumption_meters_phase_count then
    if st.do_not_use_production_json then .ok .vnone
    else
      match getJson st.endpoint_production_json_results with
      | .error e => .error e
      | .ok j =>
        match (do
          let c1 ← jsonGetKey j ("consumption")
          let e1 ← jsonGetIdx c1 0
          let l ← jsonGetKey e1 ("lines")
          let e2 ← jsonGetIdx l (phaseIdx p)
          jsonGetKey e2 ("whToday") : Except PyErr Json) with
        | .ok v => intVal v
        | .error .keyError => .ok .vnone
        | .error .indexError => .ok .vnone
        | .error e => .error e
  else .ok .vnone

/-- lifetime_production_phase(phase): per-phase lifetime energy from the
production meters report. -/
def lifetime_production_phase (st : ReaderState) (phase : Option Phase) :
    Except PyErr PyVal :=
  match meters_report_value st ("whDlvdCum") .production phase with
  | .error e => .error e
  | .ok none =>
    .ok (match phase with
      | none => .vstr message_production_not_available
      | some _ => .vnone)
  | .ok (some v) => intVal v

/-- pf(phase): power factor from the net-consumption meters report. -/
def pf (st : ReaderState) (phase : Option Phase) : Except PyErr PyVal :=
  match meters_report_value st ("pwrFactor") .netConsumption phase with
  | .error e => .error e
  | .ok none =>
    .ok (match phase with
      | none => .vstr message_pf_not_available
      | some _ => .vnone)
  | .ok (some v) => floatVal v

/-- voltage(phase): rms voltage from the net-consumption meters report. -/
def voltage (st : ReaderState) (phase : Option Phase) : Except PyErr PyVal :=
  match meters_report_value st ("rmsVoltage") .netConsumption phase with
  | .error e => .error e
  | .ok none =>
    .ok (match phase with
      | none => .vstr message_voltage_not_available
      | some _ => .vnone)
  | .ok (some v) => floatVal v

/-- frequency(phase): grid frequency from the net-consumption meters
report. -/
def frequency (st : ReaderState) (phase : Option Phase) : Except PyErr PyVal :=
  match meters_report_value st ("freqHz") .netConsumption phase with
  | .error e => .error e
  | .ok none =>
    .ok (match phase with
      | none => .vstr message_frequency_not_available
      | some _ => .vnone)
  | .ok (some v) => floatVal v

/-- consumption_Current(phase): rms current from the net-consumption
meters report. -/
def consumption_Current (st : ReaderState) (phase : Option Phase) :
    Except PyErr PyVal :=
  match meters_report_value st ("rmsCurrent") .netConsumption phase with
  | .error e => .error e
  | .ok none =>
    .ok (match phase with
      | none => .vstr message_current_consumption_not_available
      | some _ => .vnone)
  | .ok (some v) => floatVal v

/-- production_Current(phase): rms current from the production meters
report. -/
def production_Current (st : ReaderState) (phase : Option Phase) :
    Except PyErr PyVal :=
  match meters_report_value st ("rmsCurrent") .production phase with
  | .error e => .error e
  | .ok none =>
    .ok (match phase with
      | none => .vstr message_current_production_not_available
      | some _ => .vnone)
  | .ok (some v) => floatVal v

end Envoy

namespace Envoy

/-- Abstraction of time.strftime("%Y-%m-%d %H:%M:%S", time.localtime(ts))
on a timestamp that localtime accepts: a total function of that timestamp
(its exact output is never relied on).  The raising paths of localtime
are handled in pyTimestamp, not here. -/
def strftimeModel (q : ℚ) : String := toString q

/-- Abstraction of the formatted current local time:
time.localtime(None) succeeds and uses the current wall-clock time, so a
null lastReportDate formats the poll time rather than raising. -/
def localtimeNowString : String := toString (0 : ℚ)

/-- The timestamp range on which time.localtime succeeds on every
supported platform: non-negative and below 2^31 seconds (within every
time_t and struct tm range).  Outside this zone CPython's localtime can
raise — always an OverflowError beyond the 64-bit time_t range, and an
OSError on platforms whose C localtime rejects the value (negative
timestamps on Windows, year overflow elsewhere) — so the embedding
conservatively routes every out-of-zone timestamp to the single raising
path overflowError.  Neither exception class is caught by
inverters_production's except tuple, which is all the claims rely on. -/
def localtimeSafe (q : ℚ) : Bool :=
  decide ((0 : ℚ) ≤ q) && decide (q < 2147483648)

/-- Python dict assignment d[k] = v with == key identification: replace an
existing equal key's value in place, else append the new binding. -/
def dictInsert (entries : List (Json × Json × String)) (k : Json)
    (v : Json × String) : List (Json × Json × String) :=
  match entries with
  | [] => [(k, v.1, v.2)]
  | (k2, w) :: rest =>
    if jsonEqb k2 k then (k2, v.1, v.2) :: rest
    else (k2, w) :: dictInsert rest k v

/-- time.localtime + strftime applied to the lastReportDate field:
numbers format when localtime accepts them and raise otherwise (an
exception outside the caught tuple), booleans coerce to 0/1, None uses
the current time, and any other type raises TypeError. -/
def pyTimestamp (date : Json) : Except PyErr String :=
  match date with
  | .num q =>
    if localtimeSafe q then .ok (strftimeModel q) else .error .overflowError
  | .bool b => .ok (strftimeModel (cond b 1 0))
  | .null => .ok localtimeNowString
  | _ => .error .typeError

/-- One loop iteration of inverters_production: evaluate the entry value
(watts, formatted report time) and then the dictionary key, in the
source's evaluation order. -/
def invStep (acc : List (Json × Json × String)) (item : Json) :
    Except PyErr (List (Json × Json × String)) := do
  let watts ← jsonGetKey item ("lastReportWatts")
  let date ← jsonGetKey item ("lastReportDate")
  let ts ← pyTimestamp date
  let serial ← jsonGetKey item ("serialNumber")
  if jsonHashable serial then pure (dictInsert acc serial (watts, ts))
  else .error .typeError

/-- The for-loop of inverters_production over the parsed inverter list. -/
def invFold (acc : List (Json × Json × String)) :
    List Json → Except PyErr (List (Json × Json × String))
  | [] => .ok acc
  | item :: rest =>
    match invStep acc item with
    | .error e => .error e
    | .ok acc2 => invFold acc2 rest

/-- The whole try-block body of inverters_production: parse the cached
inverters response and build the per-serial dictionary. -/
def invBuild (st : ReaderState) :
    Except PyErr (List (Json × Json × String)) := do
  let j ← getJson st.endpoint_production_inverters
  let items ← pyIter j
  invFold [] items

/-- The exception classes caught by inverters_production:
(JSONDecodeError, KeyError, IndexError, TypeError, AttributeError). -/
def caughtByInverters : PyErr → Bool
  | .jsonDecodeError => true
  | .keyError => true
  | .indexError => true
  | .typeError => true
  | .attributeError => true
  | _ => false

/-- inverters_production(): None when inverter fetching is disabled or any
caught exception occurs while reading the cached payload, otherwise the
serial-keyed dictionary. -/
def inverters_production (st : ReaderState) : Except PyErr PyVal :=
  if st.get_inverters = false then .ok .vnone
  else
    match invBuild st with
    | .ok entries => .ok (.vdict entries)
    | .error e => if caughtByInverters e then .ok .vnone else .error e

/-- Python len() on a JSON value. -/
def pyLen : Json → Except PyErr Nat
  | .arr xs => .ok xs.length
  | .obj fs => .ok fs.length
  | .str s => .ok s.length
  | _ => .error .typeError

/-- The ENCHARGE/ensemble fallback of battery_storage: return
ensemble_json[0]["devices"] when present, else the battery-not-available
message.  The ensemble parse is outside the try-block, so its errors
propagate. -/
def ensembleFallback (st : ReaderState) : Except PyErr PyVal :=
  match st.endpoint_ensemble_json_results with
  | none => .ok (.vstr message_battery_not_available)
  | some r =>
    match r.body with
    | .error _ => .error .jsonDecodeError
    | .ok ej =>
      match pyLen ej with
      | .error e => .error e
      | .ok n =>
        if n > 0 then
          match jsonGetIdx ej 0 with
          | .error e => .error e
          | .ok e0 =>
            match e0 with
            | .obj efs =>
              match objLookup ("devices") efs with
              | some v => .ok (.vjson v)
              | none => .ok (.vstr message_battery_not_available)
            | _ => .error .attributeError
        else .ok (.vstr message_battery_not_available)

/-- battery_storage(): the not-available message for models without
batteries; None when the cached production.json is undecodable (the only
exception class the source catches here); otherwise storage[0] or the
ensemble fallback.  Lookup errors on a decoded payload propagate. -/
def battery_storage (st : ReaderState) : Except PyErr PyVal :=
  if st.endpoint_type = some ENVOY_MODEL_C ∨
      st.endpoint_type = some ENVOY_MODEL_LEGACY then
    .ok (.vstr message_battery_not_available)
  else
    match st.endpoint_production_json_results with
    | none => .error .attributeError
    | some r =>
      match r.body with
      | .error _ => .ok .vnone
      | .ok j =>
        match (do
          let s ← jsonGetKey j ("storage")
          jsonGetIdx s 0 : Except PyErr Json) with
        | .error e => .error e
        | .ok s0 =>
          match s0 with
          | .obj sfs =>
            match objLookup ("percentFull") sfs with
            | some _ => .ok (.vjson s0)
            | none => ensembleFallback st
          | _ => .error .attributeError

end Envoy

namespace Envoy

/-- What one GET attempt inside _async_fetch_with_retry observes: an HTTP
status code, an httpx.TimeoutException, or any other exception. -/
inductive HttpEvent where
  | status (code : Nat)
  | timeout
  | excOther
  deriving Repr, DecidableEq

/-- Outcome of the credential-refresh sub-routine run on a 401:
_refresh_token_cookies returns True (success), returns False after which
_getEnphaseToken completes (failure) or raises (failureRaise), or
_refresh_token_cookies itself raises (raised).  Raises inside the 401
branch are caught by the enclosing generic exception handler, which on a
non-final attempt sleeps and retries. -/
inductive RefreshOutcome where
  | success
  | failure
  | failureRaise
  | raised
  deriving Repr, DecidableEq

/-- Whether a refresh outcome includes an escalation to the full token
fetch (_getEnphaseToken). -/
def tokenFetchDelta : RefreshOutcome → Nat
  | .success => 0
  | .raised => 0
  | .failure => 1
  | .failureRaise => 1

/-- How _async_fetch_with_retry ends: a returned response (none models
the 404 -> return None path, some code a returned response with that
status code), a re-raised timeout, a re-raised other exception, or loop
fall-through (unreachable when the fuel equals the remaining attempts). -/
inductive FetchOutcome where
  | returned (resp : Option Nat)
  | raisedTimeout
  | raisedOther
  | exhausted
  deriving Repr, DecidableEq

/-- Result of a fetch run: its outcome, the number of
_refresh_token_cookies calls made from the 401 handler, the number of
_getEnphaseToken escalations, and the number of GET attempts issued. -/
structure FetchResult where
  outcome : FetchOutcome
  cookieRefreshCalls : Nat
  tokenFetchCalls : Nat
  attempts : Nat
  deriving Repr, DecidableEq

/-- The attempt loop of _async_fetch_with_retry.  events gives what each
attempt observes; refreshOutcomes gives the outcome of each successive
credential refresh (indexed by refresh count).  fuel bounds the remaining
iterations (the caller passes retries + 1), attempt is the current
zero-based attempt index. -/
def fetchGo (useToken : Bool) (retries : Nat) (events : Nat → HttpEvent)
    (refreshOutcomes : Nat → RefreshOutcome) :
    Nat → Nat → Nat → Nat → FetchResult
  | 0, attempt, rc, tf => ⟨.exhausted, rc, tf, attempt⟩
  | fuel + 1, attempt, rc, tf =>
    match events attempt with
    | .status code =>
      if code = 401 ∧ attempt < retries then
        if useToken then
          fetchGo useToken retries events refreshOutcomes fuel (attempt + 1)
            (rc + 1) (tf + tokenFetchDelta (refreshOutcomes rc))
        else
          fetchGo useToken retries events refreshOutcomes fuel (attempt + 1) rc tf
      else if code = 404 then ⟨.returned none, rc, tf, attempt + 1⟩
      else ⟨.returned (some code), rc, tf, attempt + 1⟩
    | .timeout =>
      if attempt = retries then ⟨.raisedTimeout, rc, tf, attempt + 1⟩
      else fetchGo useToken retries events refreshOutcomes fuel (attempt + 1) rc tf
    | .excOther =>
      if attempt = retries then ⟨.raisedOther, rc, tf, attempt + 1⟩
      else fetchGo useToken retries events refreshOutcomes fuel (attempt + 1) rc tf

/-- _async_fetch_with_retry for a reader constructed with the given
fetch_retries argument: range(self._fetch_retries + 1) attempts where
self._fetch_retries = max(fetch_retries, 1). -/
def async_fetch_with_retry (useToken : Bool) (fetch_retries : ℤ)
    (events : Nat → HttpEvent) (refreshOutcomes : Nat → RefreshOutcome) :
    FetchResult :=
  let r := (storedFetchRetries fetch_retries).toNat
  fetchGo useToken r events refreshOutcomes (r + 1) 0 0 0

/-- One state-mutating operation on a reader instance, with the fetched
responses it would store passed as oracle data. -/
inductive Step where
  | meters (now : ℤ) (m rep rd : Option Response)
  | info (now : ℤ) (i : Option Response)
  | pc (detectmode : Bool) (p e h : Option Response)
  | pEndpoint (v : Option Response)
  | p0 (pr hr : Option Response)
  | grid
  | updateCycle (now : ℤ) (m rep rd p e h v pr hr i : Option Response)

/-- Apply one operation to the reader state (Python mutations persist even
when the operation raises, so the resulting state is taken in every
case). -/
def applyStep (st : ReaderState) : Step → ReaderState
  | .meters now m rep rd => (update_meters_endpoint st now m rep rd).1
  | .info now i => (update_info_endpoint st now i).1
  | .pc d p e h => (update_from_pc_endpoint st d p e h).1
  | .pEndpoint v => update_from_p_endpoint st v
  | .p0 pr hr => update_from_p0_endpoint st pr hr
  | .grid => (grid_status st).1
  | .updateCycle now m rep rd p e h v pr hr i =>
    (update_all st now m rep rd p e h v pr hr i).1

/-- Run a sequence of operations on a reader instance. -/
def runSteps (st : ReaderState) (steps : List Step) : ReaderState :=
  steps.foldl applyStep st

end Envoy

namespace Envoy

theorem except_pure_eq (a : α) :
    (pure a : Except PyErr α) = .ok a := rfl

theorem except_bind_ok (a : α) (f : α → Except PyErr β) :
    ((Except.ok a : Except PyErr α) >>= f) = f a := rfl

theorem except_bind_err (e : PyErr) (f : α → Except PyErr β) :
    ((Except.error e : Except PyErr α) >>= f) = .error e := rfl

theorem except_map_ok (a : α) (f : α → β) :
    (f <$> (Except.ok a : Except PyErr α)) = .ok (f a) := rfl

theorem except_map_err (e : PyErr) (f : α → β) :
    (f <$> (Except.error e : Except PyErr α)) = .error e := rfl

/-- A concrete reader state used as the base for witnesses. -/
def stBase : ReaderState where
  endpoint_type := some ENVOY_MODEL_S
  has_grid_status := true
  isProductionMeteringEnabled := false
  isConsumptionMeteringEnabled := false
  net_consumption_meters_type := false
  production_meters_phase_count := 0
  consumption_meters_phase_count := 0
  endpoint_meters_json_results := none
  endpoint_meters_reports_json_results := none
  endpoint_meters_readings_json_results := none
  endpoint_production_json_results := none
  endpoint_production_v1_results := none
  endpoint_production_results := none
  endpoint_production_inverters := none
  endpoint_ensemble_json_results := none
  endpoint_home_json_results := none
  endpoint_home_results := none
  endpoint_info_results := none
  meters_next_refresh_time := 0
  info_next_refresh_time := 0
  info_refresh_buffer_seconds := 3600
  get_inverters := false
  do_not_use_production_json := false
  fetch_retries := 1

/-- Claim C3: a meters (CT-configuration) endpoint refresh whose fetched
response body is the literal string "[]" raises nothing and leaves all
five capability fields (isProductionMeteringEnabled,
isConsumptionMeteringEnabled, net_consumption_meters_type,
production_meters_phase_count, consumption_meters_phase_count) exactly as
they were before the refresh. -/
theorem C3_empty_meters_array_preserves_capability
    (st : ReaderState) (now : ℤ) (r : Response) (rep rd : Option Response)
    (hdue : st.meters_next_refresh_time ≤ now)
    (htext : r.text = "[]") :
    (update_meters_endpoint st now (some r) rep rd).2 = none ∧
    (update_meters_endpoint st now (some r) rep rd).1.isProductionMeteringEnabled =
      st.isProductionMeteringEnabled ∧
    (update_meters_endpoint st now (some r) rep rd).1.isConsumptionMeteringEnabled =
      st.isConsumptionMeteringEnabled ∧
    (update_meters_endpoint st now (some r) rep rd).1.net_consumption_meters_type =
      st.net_consumption_meters_type ∧
    (update_meters_endpoint st now (some r) rep rd).1.production_meters_phase_count =
      st.production_meters_phase_count ∧
    (update_meters_endpoint st now (some r) rep rd).1.consumption_meters_phase_count =
      st.consumption_meters_phase_count := by
  unfold update_meters_endpoint metersRefreshStep updateMetersSubEndpoints
  by_cases h1 : st.endpoint_type = some ENVOY_MODEL_S <;>
    simp [hdue, htext, h1]

/-- Witness for C3 at a concrete state and response. -/
theorem C3_empty_meters_array_preserves_capability_witness :
    stBase.meters_next_refresh_time ≤ 0 ∧
    (update_meters_endpoint stBase 0
        (some ⟨200, ("[]"), Except.error ()⟩) none none).1.isProductionMeteringEnabled =
      stBase.isProductionMeteringEnabled :=
  ⟨by decide,
    (C3_empty_meters_array_preserves_capability stBase 0
      ⟨200, ("[]"), Except.error ()⟩ none none (by decide) rfl).2.1⟩

end Envoy

namespace Envoy

/-- Claim C7: with the INTERVAL refresh policy of the info endpoint, a
first invocation at a due time fetches, a second invocation strictly
inside the info_refresh_buffer_seconds window does not fetch, and a third
invocation at or after the window's end fetches again — exactly one fetch
for the first two calls and a second fetch on the third. -/
theorem C7_info_interval_refresh_idempotence
    (st : ReaderState) (t1 t2 t3 : ℤ) (i1 i2 i3 : Option Response)
    (hdue : st.info_next_refresh_time ≤ t1)
    (hwin : t2 < t1 + st.info_refresh_buffer_seconds)
    (hela : t1 + st.info_refresh_buffer_seconds ≤ t3) :
    (update_info_endpoint st t1 i1).2 = true ∧
    (update_info_endpoint (update_info_endpoint st t1 i1).1 t2 i2).2 = false ∧
    (update_info_endpoint
        (update_info_endpoint (update_info_endpoint st t1 i1).1 t2 i2).1
        t3 i3).2 = true := by
  unfold update_info_endpoint
  have h2 : ¬(t1 + st.info_refresh_buffer_seconds ≤ t2) := by omega
  simp [hdue, h2, hela]

/-- Witness for C7 at a concrete state and times 0, 10, 3600. -/
theorem C7_info_interval_refresh_idempotence_witness :
    stBase.info_next_refresh_time ≤ 0 ∧
    (10 : ℤ) < 0 + stBase.info_refresh_buffer_seconds ∧
    0 + stBase.info_refresh_buffer_seconds ≤ (3600 : ℤ) ∧
    (update_info_endpoint stBase 0 none).2 = true ∧
    (update_info_endpoint (update_info_endpoint stBase 0 none).1 10 none).2 = false ∧
    (update_info_endpoint
        (update_info_endpoint (update_info_endpoint stBase 0 none).1 10 none).1
        3600 none).2 = true := by
  refine ⟨by decide, by decide, by decide, ?_⟩
  exact C7_info_interval_refresh_idempotence stBase 0 10 3600 none none none
    (by decide) (by decide) (by decide)

/-- Claim C9: resolving a CT-configuration response that is a two-element
array whose elements both carry state "enabled" and phaseCount 3 (and a
measurementType on the consumption element, as a well-formed response
has) sets isProductionMeteringEnabled and isConsumptionMeteringEnabled to
true and both phase counts to 3, raising nothing. -/
theorem C9_ct_config_round_trip
    (st : ReaderState) (now : ℤ) (r : Response) (rep rd : Option Response)
    (m0 m1 mt : Json)
    (hdue : st.meters_next_refresh_time ≤ now)
    (htext : r.text ≠ "[]")
    (hbody : r.body = .ok (Json.arr [m0, m1]))
    (hs0 : jsonGetKey m0 ("state") = .ok (.str ("enabled")))
    (hp0 : jsonGetKey m0 ("phaseCount") = .ok (.num 3))
    (hs1 : jsonGetKey m1 ("state") = .ok (.str ("enabled")))
    (hmt : jsonGetKey m1 ("measurementType") = .ok mt)
    (hp1 : jsonGetKey m1 ("phaseCount") = .ok (.num 3)) :
    (update_meters_endpoint st now (some r) rep rd).2 = none ∧
    (update_meters_endpoint st now (some r) rep rd).1.isProductionMeteringEnabled = true ∧
    (update_meters_endpoint st now (some r) rep rd).1.isConsumptionMeteringEnabled = true ∧
    (update_meters_endpoint st now (some r) rep rd).1.production_meters_phase_count = 3 ∧
    (update_meters_endpoint st now (some r) rep rd).1.consumption_meters_phase_count = 3 := by
  unfold update_meters_endpoint metersRefreshStep resolveMeterFields has_production_metering_setup
    has_consumption_metering_setup has_net_consumption_meters_type
    get_production_meters_phase_count get_consumption_meters_phase_count
    updateMetersSubEndpoints
  by_cases h1 : st.endpoint_type = some ENVOY_MODEL_S <;>
    simp [hdue, htext, hbody, jsonGetIdx, hs0, hs1, hmt, hp0, hp1, jsonEqb, h1,
      except_bind_ok, except_map_ok, except_pure_eq]

end Envoy

namespace Envoy

/-- Production CT entry of the concrete C9 payload. -/
def ctProdEntry : Json :=
  Json.obj [(("state"), Json.str ("enabled")), (("phaseCount"), Json.num 3)]

/-- Consumption CT entry of the concrete C9 payload. -/
def ctConsEntry : Json :=
  Json.obj [(("state"), Json.str ("enabled")),
    (("measurementType"), Json.str ("net-consumption")),
    (("phaseCount"), Json.num 3)]

/-- The concrete CT-configuration response used by the C9 witness. -/
def ctResp : Response where
  status_code := 200
  text := "ct"
  body := Except.ok (Json.arr [ctProdEntry, ctConsEntry])

/-- Witness for C9 at the concrete two-element CT-configuration payload. -/
theorem C9_ct_config_round_trip_witness :
    (update_meters_endpoint stBase 0 (some ctResp) none none).2 = none ∧
    (update_meters_endpoint stBase 0 (some ctResp) none none).1.isProductionMeteringEnabled = true ∧
    (update_meters_endpoint stBase 0 (some ctResp) none none).1.isConsumptionMeteringEnabled = true ∧
    (update_meters_endpoint stBase 0 (some ctResp) none none).1.production_meters_phase_count = 3 ∧
    (update_meters_endpoint stBase 0 (some ctResp) none none).1.consumption_meters_phase_count = 3 :=
  C9_ct_config_round_trip stBase 0 ctResp none none ctProdEntry ctConsEntry
    (Json.str ("net-consumption")) (by decide) (by decide) rfl rfl rfl rfl rfl rfl

end Envoy

namespace Envoy

theorem resolveMeterFields_scalars (st : ReaderState) (j : Json) (now : ℤ) :
    (resolveMeterFields st j now).1.has_grid_status = st.has_grid_status ∧
    (resolveMeterFields st j now).1.fetch_retries = st.fetch_retries := by
  unfold resolveMeterFields
  repeat' split
  all_goals simp

theorem updateMetersSubEndpoints_scalars (st : ReaderState)
    (rep rd : Option Response) :
    (updateMetersSubEndpoints st rep rd).has_grid_status = st.has_grid_status ∧
    (updateMetersSubEndpoints st rep rd).fetch_retries = st.fetch_retries := by
  unfold updateMetersSubEndpoints
  by_cases h : st.endpoint_type = some ENVOY_MODEL_S <;> simp [h]

theorem metersRefreshStep_scalars (st : ReaderState) (now : ℤ)
    (m : Option Response) :
    (metersRefreshStep st now m).1.has_grid_status = st.has_grid_status ∧
    (metersRefreshStep st now m).1.fetch_retries = st.fetch_retries := by
  unfold metersRefreshStep
  repeat' split
  all_goals simp [resolveMeterFields_scalars]

theorem update_meters_endpoint_scalars (st : ReaderState) (now : ℤ)
    (m rep rd : Option Response) :
    (update_meters_endpoint st now m rep rd).1.has_grid_status = st.has_grid_status ∧
    (update_meters_endpoint st now m rep rd).1.fetch_retries = st.fetch_retries := by
  unfold update_meters_endpoint
  cases h : metersRefreshStep st now m with
  | mk st1 e =>
    have h1 := metersRefreshStep_scalars st now m
    rw [h] at h1
    cases e <;> simp_all [updateMetersSubEndpoints_scalars]

theorem update_info_endpoint_scalars (st : ReaderState) (now : ℤ)
    (i : Option Response) :
    (update_info_endpoint st now i).1.has_grid_status = st.has_grid_status ∧
    (update_info_endpoint st now i).1.fetch_retries = st.fetch_retries := by
  unfold update_info_endpoint
  by_cases h : st.info_next_refresh_time ≤ now <;> simp [h]

theorem update_from_pc_endpoint_scalars (st : ReaderState) (d : Bool)
    (p e h : Option Response) :
    (update_from_pc_endpoint st d p e h).1.has_grid_status = st.has_grid_status ∧
    (update_from_pc_endpoint st d p e h).1.fetch_retries = st.fetch_retries := by
  unfold update_from_pc_endpoint
  by_cases h1 : st.do_not_use_production_json = false ∨ d = true <;>
    by_cases h2 : st.has_grid_status <;> simp [h1, h2]

theorem update_from_p_endpoint_scalars (st : ReaderState) (v : Option Response) :
    (update_from_p_endpoint st v).has_grid_status = st.has_grid_status ∧
    (update_from_p_endpoint st v).fetch_retries = st.fetch_retries := by
  unfold update_from_p_endpoint
  simp

theorem update_from_p0_endpoint_scalars (st : ReaderState)
    (pr hr : Option Response) :
    (update_from_p0_endpoint st pr hr).has_grid_status = st.has_grid_status ∧
    (update_from_p0_endpoint st pr hr).fetch_retries = st.fetch_retries := by
  unfold update_from_p0_endpoint
  simp

theorem grid_status_retries (st : ReaderState) :
    (grid_status st).1.fetch_retries = st.fetch_retries := by
  unfold grid_status
  repeat' split
  all_goals simp

theorem grid_status_hgs_false (st : ReaderState)
    (h : st.has_grid_status = false) :
    (grid_status st).1.has_grid_status = false := by
  unfold grid_status
  simp [h]

theorem update_all_scalars (st : ReaderState) (now : ℤ)
    (m rep rd p e h v pr hr i : Option Response) :
    (update_all st now m rep rd p e h v pr hr i).1.has_grid_status =
      st.has_grid_status ∧
    (update_all st now m rep rd p e h v pr hr i).1.fetch_retries =
      st.fetch_retries := by
  unfold update_all
  by_cases h0 : st.endpoint_type = some ENVOY_MODEL_S
  · simp only [h0, if_pos]
    cases hm : update_meters_endpoint st now m rep rd with
    | mk st1 er =>
      have h1 := update_meters_endpoint_scalars st now m rep rd
      rw [hm] at h1
      have hA : st1.has_grid_status = st.has_grid_status := h1.1
      have hB : st1.fetch_retries = st.fetch_retries := h1.2
      cases er
      · simp only []
        constructor
        · rw [(update_info_endpoint_scalars _ _ _).1]
          split <;>
            simp [(update_from_p_endpoint_scalars _ _).1,
              (update_from_pc_endpoint_scalars _ _ _ _ _).1, hA]
        · rw [(update_info_endpoint_scalars _ _ _).2]
          split <;>
            simp [(update_from_p_endpoint_scalars _ _).2,
              (update_from_pc_endpoint_scalars _ _ _ _ _).2, hB]
      · exact ⟨hA, hB⟩
  · simp only [h0, if_neg, not_false_iff]
    constructor
    · rw [(update_info_endpoint_scalars _ _ _).1]
      split <;> split <;>
        simp [(update_from_p_endpoint_scalars _ _).1,
          (update_from_p0_endpoint_scalars _ _ _).1]
    · rw [(update_info_endpoint_scalars _ _ _).2]
      split <;> split <;>
        simp [(update_from_p_endpoint_scalars _ _).2,
          (update_from_p0_endpoint_scalars _ _ _).2]

end Envoy

namespace Envoy

theorem applyStep_hgs_false (st : ReaderState) (s : Step)
    (h : st.has_grid_status = false) :
    (applyStep st s).has_grid_status = false := by
  cases s
  case grid => simpa [applyStep] using grid_status_hgs_false st h
  all_goals
    simp [applyStep, update_meters_endpoint_scalars, update_info_endpoint_scalars,
      update_from_pc_endpoint_scalars, update_from_p_endpoint_scalars,
      update_from_p0_endpoint_scalars, update_all_scalars, h]

theorem runSteps_hgs_false (st : ReaderState) (steps : List Step)
    (h : st.has_grid_status = false) :
    (runSteps st steps).has_grid_status = false := by
  induction steps generalizing st with
  | nil => simpa [runSteps] using h
  | cons s rest ih =>
    simp only [runSteps, List.foldl_cons]
    have h2 := applyStep_hgs_false st s h
    simpa [runSteps] using ih (applyStep st s) h2

theorem pc_endpoint_skips_home (st : ReaderState) (d : Bool)
    (p e h : Option Response) (hgs : st.has_grid_status = false) :
    (update_from_pc_endpoint st d p e h).2 = false ∧
    (update_from_pc_endpoint st d p e h).1.endpoint_home_json_results =
      st.endpoint_home_json_results := by
  unfold update_from_pc_endpoint
  by_cases h1 : st.do_not_use_production_json = false ∨ d = true <;> simp [h1, hgs]

theorem update_all_skips_home (st : ReaderState) (now : ℤ)
    (m rep rd p e h v pr hr i : Option Response)
    (hgs : st.has_grid_status = false) :
    (update_all st now m rep rd p e h v pr hr i).2.1 = false := by
  unfold update_all
  by_cases h0 : st.endpoint_type = some ENVOY_MODEL_S
  · simp only [h0, if_pos]
    cases hm : update_meters_endpoint st now m rep rd with
    | mk st1 er =>
      have h1 := update_meters_endpoint_scalars st now m rep rd
      rw [hm] at h1
      have hA : st1.has_grid_status = false := by
        have h2 : st1.has_grid_status = st.has_grid_status := h1.1
        rw [h2, hgs]
      cases er
      · simpa using (pc_endpoint_skips_home st1 false p e h hA).1
      · simp
  · simp [h0]

/-- Claim C6: (a) a grid-status query against a cached 200 home.json
response whose decoded object lacks the enpower key clears
has_grid_status and returns None; (b) once has_grid_status is false, no
sequence of reader operations (endpoint refreshes, poll cycles,
grid-status queries) ever makes it true again; (c) with the flag false,
the metered-model pc-endpoint refresh does not issue the home.json
request and leaves the cached home.json response untouched; (d) with the
flag false, a whole metered-model poll cycle issues no home.json
request. -/
theorem C6_grid_status_one_shot_disable :
    (∀ (st : ReaderState) (r : Response) (fs : List (String × Json)),
      st.has_grid_status = true →
      st.endpoint_home_json_results = some r →
      r.status_code = 200 →
      r.body = .ok (.obj fs) →
      objLookup ("enpower") fs = none →
      (grid_status st).1.has_grid_status = false ∧
        (grid_status st).2 = .ok .vnone) ∧
    (∀ (st : ReaderState) (steps : List Step),
      st.has_grid_status = false →
      (runSteps st steps).has_grid_status = false) ∧
    (∀ (st : ReaderState) (d : Bool) (p e h : Option Response),
      st.has_grid_status = false →
      (update_from_pc_endpoint st d p e h).2 = false ∧
        (update_from_pc_endpoint st d p e h).1.endpoint_home_json_results =
          st.endpoint_home_json_results) ∧
    (∀ (st : ReaderState) (now : ℤ)
      (m rep rd p e h v pr hr i : Option Response),
      st.has_grid_status = false →
      (update_all st now m rep rd p e h v pr hr i).2.1 = false) := by
  refine ⟨?_, runSteps_hgs_false, pc_endpoint_skips_home, update_all_skips_home⟩
  intro st r fs hgs hhome hsc hbody hlook
  unfold grid_status
  simp [hgs, hhome, hsc, hbody, hlook]

/-- Witness for C6 at a concrete cleared state and a concrete step list. -/
theorem C6_grid_status_one_shot_disable_witness :
    ((grid_status { stBase with
        endpoint_home_json_results :=
          some ⟨200, ("h"), Except.ok (Json.obj [])⟩ }).1.has_grid_status =
      false) ∧
    (runSteps { stBase with has_grid_status := false }
        [Step.grid, Step.pc false none none none,
          Step.updateCycle 0 none none none none none none none none none none]).has_grid_status =
      false ∧
    (update_from_pc_endpoint { stBase with has_grid_status := false }
        false none none none).2 = false ∧
    (update_all { stBase with has_grid_status := false } 0
        none none none none none none none none none none).2.1 = false := by
  refine ⟨?_, ?_, ?_, ?_⟩
  · exact (C6_grid_status_one_shot_disable.1 _ ⟨200, ("h"), Except.ok (Json.obj [])⟩ []
      rfl rfl rfl rfl rfl).1
  · exact C6_grid_status_one_shot_disable.2.1 _ _ rfl
  · exact (C6_grid_status_one_shot_disable.2.2.1 _ false none none none rfl).1
  · exact C6_grid_status_one_shot_disable.2.2.2 _ 0
      none none none none none none none none none none rfl

end Envoy

namespace Envoy

theorem fetchGo_const_timeout (u : Bool) (r : Nat) (ro : Nat → RefreshOutcome) :
    ∀ (fuel attempt rc tf : Nat), attempt + fuel = r + 1 → 1 ≤ fuel →
      fetchGo u r (fun _ => .timeout) ro fuel attempt rc tf =
        ⟨.raisedTimeout, rc, tf, r + 1⟩ := by
  intro fuel
  induction fuel with
  | zero => intro attempt rc tf h h1; omega
  | succ n ih =>
    intro attempt rc tf h h1
    unfold fetchGo
    by_cases ha : attempt = r
    · simp [ha]
    · have hlt : attempt < r := by omega
      simp only [ha, if_neg, not_false_iff]
      rw [ih (attempt + 1) rc tf (by omega) (by omega)]

theorem applyStep_retries (st : ReaderState) (s : Step) :
    (applyStep st s).fetch_retries = st.fetch_retries := by
  cases s <;>
    simp [applyStep, update_meters_endpoint_scalars, update_info_endpoint_scalars,
      update_from_pc_endpoint_scalars, update_from_p_endpoint_scalars,
      update_from_p0_endpoint_scalars, update_all_scalars, grid_status_retries]

theorem runSteps_retries (st : ReaderState) (steps : List Step) :
    (runSteps st steps).fetch_retries = st.fetch_retries := by
  induction steps generalizing st with
  | nil => simp [runSteps]
  | cons s rest ih =>
    simp only [runSteps, List.foldl_cons]
    have h2 := applyStep_retries st s
    calc (List.foldl applyStep (applyStep st s) rest).fetch_retries
        = (applyStep st s).fetch_retries := by simpa [runSteps] using ih (applyStep st s)
      _ = st.fetch_retries := h2

/-- Claim C10: the stored retry count is max(fetch_retries, 1), hence at
least 1, so on persistent transport failure every fetch performs
stored + 1 >= 2 attempts before re-raising — even for zero or negative
constructor arguments — and no reader operation ever changes the stored
count. -/
theorem C10_fetch_retries_lower_bound :
    (∀ fr : ℤ, storedFetchRetries fr = max fr 1 ∧ 1 ≤ storedFetchRetries fr) ∧
    (∀ (fr : ℤ) (useToken : Bool) (ro : Nat → RefreshOutcome),
      (async_fetch_with_retry useToken fr (fun _ => .timeout) ro).outcome =
        FetchOutcome.raisedTimeout ∧
      (async_fetch_with_retry useToken fr (fun _ => .timeout) ro).attempts =
        (storedFetchRetries fr).toNat + 1 ∧
      2 ≤ (async_fetch_with_retry useToken fr (fun _ => .timeout) ro).attempts) ∧
    (∀ (st : ReaderState) (steps : List Step),
      (runSteps st steps).fetch_retries = st.fetch_retries) := by
  refine ⟨?_, ?_, runSteps_retries⟩
  · intro fr
    exact ⟨rfl, le_max_right fr 1⟩
  · intro fr useToken ro
    have hrun := fetchGo_const_timeout useToken (storedFetchRetries fr).toNat ro
      ((storedFetchRetries fr).toNat + 1) 0 0 0 (by omega) (by omega)
    unfold async_fetch_with_retry
    rw [hrun]
    have h1 : 1 ≤ storedFetchRetries fr := le_max_right fr 1
    refine ⟨rfl, rfl, ?_⟩
    show 2 ≤ (storedFetchRetries fr).toNat + 1
    unfold storedFetchRetries at h1 ⊢
    omega

/-- Witness for C10 at fetch_retries = -5: two attempts are still made. -/
theorem C10_fetch_retries_lower_bound_witness :
    storedFetchRetries (-5) = 1 ∧
    (async_fetch_with_retry false (-5) (fun _ => .timeout)
        (fun _ => .success)).attempts = 2 ∧
    (runSteps stBase []).fetch_retries = stBase.fetch_retries := by
  refine ⟨by decide, ?_, C10_fetch_retries_lower_bound.2.2 stBase []⟩
  have h := (C10_fetch_retries_lower_bound.2.1 (-5) false (fun _ => .success)).2.1
  rw [h]
  decide

end Envoy

namespace Envoy

/-- Counterexample to claim C1 as stated: with use_enlighten_owner_token
set, retries = 1 and every attempt answering 401, the fetch ends by
returning the 401 response itself (outcome = returned (some 401), after
exactly one credential refresh and two attempts) — it does not raise any
exception, contradicting the claimed authentication error on the final
attempt. -/
theorem C1_final_401_returns_response_counterexample :
    async_fetch_with_retry true 1 (fun _ => .status 401) (fun _ => .success) =
      ⟨.returned (some 401), 1, 0, 2⟩ := by decide

/-- Claim C1 (amended): with use_enlighten_owner_token set, a 401 observed
on a non-final attempt triggers exactly one credential-refresh attempt —
one _refresh_token_cookies call, escalating to one _getEnphaseToken call
when the cookie refresh fails — and then resubmits the same URL as the
next attempt; a 401 observed on the final attempt is returned to the
caller as the response, with no refresh and no further attempt (rather
than raising an authentication error; callers such as detect_model raise
it from the stored 401). -/
theorem C1_fetch_401_refresh_behavior
    (retries : Nat) (events : Nat → HttpEvent) (ro : Nat → RefreshOutcome)
    (fuel attempt rc tf : Nat) :
    (attempt < retries → events attempt = .status 401 →
      fetchGo true retries events ro (fuel + 1) attempt rc tf =
        fetchGo true retries events ro fuel (attempt + 1) (rc + 1)
          (tf + tokenFetchDelta (ro rc))) ∧
    (events retries = .status 401 →
      fetchGo true retries events ro (fuel + 1) retries rc tf =
        ⟨.returned (some 401), rc, tf, retries + 1⟩) := by
  constructor
  · intro hlt hev
    conv_lhs => rw [fetchGo]
    simp [hev, hlt]
  · intro hev
    conv_lhs => rw [fetchGo]
    simp [hev]

/-- Witness for C1 (amended) with retries = 1, a constant-401 server and a
cookie refresh that fails (so the token fetch escalation fires). -/
theorem C1_fetch_401_refresh_behavior_witness :
    (0 < 1 ∧ (fun _ => HttpEvent.status 401) 0 = HttpEvent.status 401) ∧
    fetchGo true 1 (fun _ => .status 401) (fun _ => .failure) 2 0 0 0 =
      fetchGo true 1 (fun _ => .status 401) (fun _ => .failure) 1 1 1 1 ∧
    fetchGo true 1 (fun _ => .status 401) (fun _ => .failure) 1 1 0 0 =
      ⟨.returned (some 401), 0, 0, 2⟩ :=
  ⟨⟨by decide, rfl⟩,
    (C1_fetch_401_refresh_behavior 1 (fun _ => .status 401) (fun _ => .failure)
      1 0 0 0).1 (by decide) rfl,
    (C1_fetch_401_refresh_behavior 1 (fun _ => .status 401) (fun _ => .failure)
      0 1 0 0).2 rfl⟩

end Envoy

namespace Envoy

theorem pyInt_nonneg (q : ℚ) (h : 0 ≤ q) : 0 ≤ pyInt q := by
  unfold pyInt
  exact Int.tdiv_nonneg (Rat.num_nonneg.mpr h) (by positivity)

theorem pyInt_den_one (q : ℚ) (h : q.den = 1) : (pyInt q : ℚ) = q := by
  unfold pyInt
  rw [h]
  simp only [Nat.cast_one, Int.tdiv_one]
  exact Rat.coe_int_num_of_den_eq_one h

/-- Counterexample to claim C2 as stated: a structurally well-formed
meters-reports payload may carry a negative cumulative currW (production
dips below zero at night), and production() then returns that negative
integer — not a non-negative one. -/
theorem C2_negative_currW_counterexample :
    production { stBase with
        isProductionMeteringEnabled := true
        endpoint_meters_reports_json_results :=
          some ⟨200, ("m"),
            Except.ok (Json.arr [Json.obj [(("cumulative"),
              Json.obj [(("currW"), Json.num (-5))])]])⟩ } none =
      .ok (.vint (-5)) ∧ (-5 : ℤ) < 0 := ⟨rfl, by decide⟩

/-- Claim C2 (amended): for a reader detected as the metered model with
well-formed cached payloads, production() returns the Python int()
truncation of the cumulative currW field of the meters-reports payload
when production metering is enabled, of production[0].wNow of the
production.json payload when it is not, and consumption() returns the
truncation of the total-consumption cumulative currW field when
consumption metering is enabled — equal to the field whenever the field
is an integer and non-negative whenever the field is non-negative. -/
theorem C2_metered_production_consumption_values
    (st : ReaderState)
    (hmodel : st.endpoint_type = some ENVOY_MODEL_S) :
    (∀ (r : Response) (j e c : Json) (q : ℚ),
      st.isProductionMeteringEnabled = true →
      st.endpoint_meters_reports_json_results = some r →
      r.body = .ok j →
      jsonGetIdx j 0 = .ok e →
      jsonGetKey e ("cumulative") = .ok c →
      jsonGetKey c ("currW") = .ok (.num q) →
      production st none = .ok (.vint (pyInt q)) ∧
        (0 ≤ q → 0 ≤ pyInt q) ∧ (q.den = 1 → (pyInt q : ℚ) = q)) ∧
    (∀ (r : Response) (j p0 e : Json) (q : ℚ),
      st.isProductionMeteringEnabled = false →
      st.endpoint_production_json_results = some r →
      r.body = .ok j →
      jsonGetKey j ("production") = .ok p0 →
      jsonGetIdx p0 0 = .ok e →
      jsonGetKey e ("wNow") = .ok (.num q) →
      production st none = .ok (.vint (pyInt q)) ∧
        (0 ≤ q → 0 ≤ pyInt q) ∧ (q.den = 1 → (pyInt q : ℚ) = q)) ∧
    (∀ (r : Response) (j e c : Json) (q : ℚ),
      st.isConsumptionMeteringEnabled = true →
      st.endpoint_meters_reports_json_results = some r →
      r.body = .ok j →
      jsonGetIdx j 2 = .ok e →
      jsonGetKey e ("cumulative") = .ok c →
      jsonGetKey c ("currW") = .ok (.num q) →
      consumption st none = .ok (.vint (pyInt q)) ∧
        (0 ≤ q → 0 ≤ pyInt q) ∧ (q.den = 1 → (pyInt q : ℚ) = q)) := by
  refine ⟨?_, ?_, ?_⟩
  · intro r j e c q hprod hrep hbody hidx hcum hcurr
    refine ⟨?_, pyInt_nonneg q, pyInt_den_one q⟩
    unfold production getJson intVal pyIntOfJson
    simp [hmodel, hprod, hrep, hbody, hidx, hcum, hcurr,
      except_bind_ok, except_bind_err]
  · intro r j p0 e q hprod hpr hbody hkey hidx hwnow
    refine ⟨?_, pyInt_nonneg q, pyInt_den_one q⟩
    unfold production getJson intVal pyIntOfJson
    simp [hmodel, hprod, hpr, hbody, hkey, hidx, hwnow,
      except_bind_ok, except_bind_err]
  · intro r j e c q hcons hrep hbody hidx hcum hcurr
    have hgate : reportsGate st .totalConsumption :=
      ⟨hmodel, Or.inr (Or.inr ⟨rfl, hcons⟩)⟩
    refine ⟨?_, pyInt_nonneg q, pyInt_den_one q⟩
    unfold consumption meters_report_value intVal pyIntOfJson
    simp [hgate, hrep, hbody, reportIdxReports, hidx, hcum, hcurr,
      except_bind_ok, except_bind_err, except_map_ok, except_pure_eq]

end Envoy

namespace Envoy

/-- Production entry cumulative section of the C2 witness payload. -/
def c2CumProd : Json := Json.obj [(("currW"), Json.num 100)]

/-- Production entry of the C2 witness meters-reports payload. -/
def c2EntryProd : Json := Json.obj [(("cumulative"), c2CumProd)]

/-- Total-consumption cumulative section of the C2 witness payload. -/
def c2CumTot : Json := Json.obj [(("currW"), Json.num 25)]

/-- Total-consumption entry of the C2 witness meters-reports payload. -/
def c2EntryTot : Json := Json.obj [(("cumulative"), c2CumTot)]

/-- The C2 witness meters-reports payload (production, net, total). -/
def c2Reports : Json := Json.arr [c2EntryProd, Json.obj [], c2EntryTot]

/-- C2 witness state with both CTs enabled and a cached reports payload. -/
def stC2a : ReaderState :=
  { stBase with
      isProductionMeteringEnabled := true
      isConsumptionMeteringEnabled := true
      endpoint_meters_reports_json_results :=
        some ⟨200, ("m"), Except.ok c2Reports⟩ }

/-- production[0] entry of the C2 witness production.json payload. -/
def c2EntryWnow : Json := Json.obj [(("wNow"), Json.num 7)]

/-- The C2 witness production.json payload. -/
def c2ProdJson : Json := Json.obj [(("production"), Json.arr [c2EntryWnow])]

/-- C2 witness state without production metering, with production.json. -/
def stC2b : ReaderState :=
  { stBase with
      endpoint_production_json_results :=
        some ⟨200, ("p"), Except.ok c2ProdJson⟩ }

/-- Witness for C2 (amended) at concrete metered payloads. -/
theorem C2_metered_production_consumption_values_witness :
    production stC2a none = .ok (.vint (pyInt 100)) ∧
    consumption stC2a none = .ok (.vint (pyInt 25)) ∧
    production stC2b none = .ok (.vint (pyInt 7)) ∧
    pyInt (100 : ℚ) = 100 := by
  refine ⟨?_, ?_, ?_, by decide⟩
  · exact ((C2_metered_production_consumption_values stC2a rfl).1
      ⟨200, ("m"), Except.ok c2Reports⟩ c2Reports c2EntryProd c2CumProd 100
      rfl rfl rfl rfl rfl rfl).1
  · exact ((C2_metered_production_consumption_values stC2a rfl).2.2
      ⟨200, ("m"), Except.ok c2Reports⟩ c2Reports c2EntryTot c2CumTot 25
      rfl rfl rfl rfl rfl rfl).1
  · exact ((C2_metered_production_consumption_values stC2b rfl).2.1
      ⟨200, ("p"), Except.ok c2ProdJson⟩ c2ProdJson (Json.arr [c2EntryWnow])
      c2EntryWnow 7 rfl rfl rfl rfl rfl rfl).1

end Envoy

namespace Envoy

theorem phaseGate_false_prod (st : ReaderState) (p : Phase)
    (h : st.production_meters_phase_count ≤ (phaseIdx p : ℚ)) :
    ¬ phaseGate st .production p := by
  rintro (⟨h1, h2, h3⟩ | ⟨h1, h2, h3⟩)
  · exact absurd h2 (not_lt.mpr h)
  · exact h3 rfl

theorem phaseGate_false_nonprod (st : ReaderState) (report : Report) (p : Phase)
    (hr : report ≠ .production)
    (h : st.consumption_meters_phase_count ≤ (phaseIdx p : ℚ)) :
    ¬ phaseGate st report p := by
  rintro (⟨h1, h2, h3⟩ | ⟨h1, h2, h3⟩)
  · exact hr h3
  · exact absurd h2 (not_lt.mpr h)

theorem meters_report_value_out_of_range (st : ReaderState) (field : String)
    (report : Report) (p : Phase)
    (hrep : ∀ r, st.endpoint_meters_reports_json_results = some r →
      ∃ j, r.body = .ok j)
    (hgate : ¬ phaseGate st report p) :
    meters_report_value st field report (some p) = .ok none := by
  unfold meters_report_value
  by_cases hg : reportsGate st report
  · cases hrec : st.endpoint_meters_reports_json_results with
    | none => simp [hg]
    | some r =>
      obtain ⟨j, hj⟩ := hrep r hrec
      simp [hg, hj, hgate]
  · simp [hg]

theorem meters_readings_value_out_of_range (st : ReaderState) (field : String)
    (report : Report) (p : Phase)
    (hrd : ∀ r, st.endpoint_meters_readings_json_results = some r →
      ∃ j, r.body = .ok j)
    (hgate : ¬ phaseGate st report p) :
    meters_readings_value st field report (some p) = .ok none := by
  unfold meters_readings_value
  by_cases hg : readingsGate st report
  · cases hrec : st.endpoint_meters_readings_json_results with
    | none => simp [hg]
    | some r =>
      obtain ⟨j, hj⟩ := hrd r hrec
      simp [hg, hj, hgate]
  · simp [hg]

/-- Counterexample to claim C4 as stated: both meters helpers call .json()
on the cached payload before checking the phase bound, so with the
consumption CT gate satisfied, a cached meters-reports body that fails to
decode, and out-of-range phase l3 against a 2-phase configuration,
consumption("l3") raises the JSON parse error instead of returning
None. -/
theorem C4_malformed_payload_raises_counterexample :
    consumption { stBase with
        isConsumptionMeteringEnabled := true
        consumption_meters_phase_count := 2
        endpoint_meters_reports_json_results :=
          some ⟨200, ("bad"), Except.error ()⟩ } (some .l3) =
      .error .jsonDecodeError := rfl

/-- Claim C4 (amended): for any phase selector among l1/l2/l3 whose mapped
index is at or beyond the relevant configured phase count, every
phase-scoped accessor returns None and raises nothing, provided that any
cached meters-reports/readings payload it consults decodes as JSON
(daily_production_phase and daily_consumption_phase return None without
touching any payload; without the decodability proviso, the meters-based
accessors propagate the parse error even for out-of-range phases). -/
theorem C4_out_of_range_phase_returns_none (st : ReaderState) (p : Phase)
    (hrep : ∀ r, st.endpoint_meters_reports_json_results = some r →
      ∃ j, r.body = .ok j)
    (hrd : ∀ r, st.endpoint_meters_readings_json_results = some r →
      ∃ j, r.body = .ok j) :
    (st.production_meters_phase_count ≤ (phaseIdx p : ℚ) →
      production_phase st (some p) = .ok .vnone ∧
      production_Current st (some p) = .ok .vnone ∧
      daily_production_phase st p = .ok .vnone ∧
      lifetime_production_phase st (some p) = .ok .vnone) ∧
    (st.consumption_meters_phase_count ≤ (phaseIdx p : ℚ) →
      consumption st (some p) = .ok .vnone ∧
      net_consumption st (some p) = .ok .vnone ∧
      daily_consumption_phase st p = .ok .vnone ∧
      pf st (some p) = .ok .vnone ∧
      voltage st (some p) = .ok .vnone ∧
      frequency st (some p) = .ok .vnone ∧
      consumption_Current st (some p) = .ok .vnone) := by
  constructor
  · intro h
    have hg := phaseGate_false_prod st p h
    have hv := meters_report_value_out_of_range st ("currW") .production p hrep hg
    have hv2 := meters_report_value_out_of_range st ("rmsCurrent") .production p hrep hg
    have hv3 := meters_report_value_out_of_range st ("whDlvdCum") .production p hrep hg
    have hdp : ¬(st.endpoint_type = some ENVOY_MODEL_S ∧
        st.isProductionMeteringEnabled = true ∧
        st.production_meters_phase_count > 1 ∧
        (phaseIdx p : ℚ) < st.production_meters_phase_count ∧
        st.do_not_use_production_json = false) := by
      rintro ⟨h1, h2, h3, h4, h5⟩
      exact absurd h4 (not_lt.mpr h)
    refine ⟨?_, ?_, ?_, ?_⟩
    · unfold production_phase
      simp [hv]
    · unfold production_Current
      simp [hv2]
    · unfold daily_production_phase
      simp only [if_neg hdp]
    · unfold lifetime_production_phase
      simp [hv3]
  · intro h
    have hgT := phaseGate_false_nonprod st .totalConsumption p (by decide) h
    have hgN := phaseGate_false_nonprod st .netConsumption p (by decide) h
    have hv := meters_report_value_out_of_range st ("currW") .totalConsumption p hrep hgT
    have hv2 := meters_readings_value_out_of_range st ("instantaneousDemand")
      .netConsumption p hrd hgN
    have hv3 := meters_report_value_out_of_range st ("pwrFactor") .netConsumption p hrep hgN
    have hv4 := meters_report_value_out_of_range st ("rmsVoltage") .netConsumption p hrep hgN
    have hv5 := meters_report_value_out_of_range st ("freqHz") .netConsumption p hrep hgN
    have hv6 := meters_report_value_out_of_range st ("rmsCurrent") .netConsumption p hrep hgN
    have hdc : ¬(st.endpoint_type = some ENVOY_MODEL_S ∧
        st.isConsumptionMeteringEnabled = true ∧
        st.consumption_meters_phase_count > 1 ∧
        (phaseIdx p : ℚ) < st.consumption_meters_phase_count) := by
      rintro ⟨h1, h2, h3, h4⟩
      exact absurd h4 (not_lt.mpr h)
    refine ⟨?_, ?_, ?_, ?_, ?_, ?_, ?_⟩
    · unfold consumption
      simp [hv]
    · unfold net_consumption
      simp [hv2]
    · unfold daily_consumption_phase
      simp only [if_neg hdc]
    · unfold pf
      simp [hv3]
    · unfold voltage
      simp [hv4]
    · unfold frequency
      simp [hv5]
    · unfold consumption_Current
      simp [hv6]

end Envoy

namespace Envoy

/-- C4 witness state: 2-phase CT configuration with decodable cached
meters payloads, so phase l3 (index 2) is out of range on both counts. -/
def stC4 : ReaderState :=
  { stBase with
      production_meters_phase_count := 2
      consumption_meters_phase_count := 2
      endpoint_meters_reports_json_results :=
        some ⟨200, ("r"), Except.ok (Json.arr [])⟩
      endpoint_meters_readings_json_results :=
        some ⟨200, ("r"), Except.ok (Json.arr [])⟩ }

/-- Witness for C4 (amended) at the concrete 2-phase state and phase l3. -/
theorem C4_out_of_range_phase_returns_none_witness :
    stC4.production_meters_phase_count ≤ (phaseIdx Phase.l3 : ℚ) ∧
    stC4.consumption_meters_phase_count ≤ (phaseIdx Phase.l3 : ℚ) ∧
    production_phase stC4 (some .l3) = .ok .vnone ∧
    daily_production_phase stC4 .l3 = .ok .vnone ∧
    consumption stC4 (some .l3) = .ok .vnone ∧
    net_consumption stC4 (some .l3) = .ok .vnone ∧
    pf stC4 (some .l3) = .ok .vnone := by
  have hrep : ∀ r, stC4.endpoint_meters_reports_json_results = some r →
      ∃ j, r.body = .ok j := by
    intro r hr
    rw [show stC4.endpoint_meters_reports_json_results =
      some ⟨200, ("r"), Except.ok (Json.arr [])⟩ from rfl] at hr
    cases hr
    exact ⟨Json.arr [], rfl⟩
  have hrd : ∀ r, stC4.endpoint_meters_readings_json_results = some r →
      ∃ j, r.body = .ok j := by
    intro r hr
    rw [show stC4.endpoint_meters_readings_json_results =
      some ⟨200, ("r"), Except.ok (Json.arr [])⟩ from rfl] at hr
    cases hr
    exact ⟨Json.arr [], rfl⟩
  have hrange1 : stC4.production_meters_phase_count ≤ (phaseIdx Phase.l3 : ℚ) := by
    norm_num [stC4, stBase, phaseIdx]
  have hrange2 : stC4.consumption_meters_phase_count ≤ (phaseIdx Phase.l3 : ℚ) := by
    norm_num [stC4, stBase, phaseIdx]
  have hmain := C4_out_of_range_phase_returns_none stC4 .l3 hrep hrd
  exact ⟨hrange1, hrange2, (hmain.1 hrange1).1, (hmain.1 hrange1).2.2.1,
    (hmain.2 hrange2).1, (hmain.2 hrange2).2.1, (hmain.2 hrange2).2.2.2.1⟩

end Envoy

namespace Envoy

theorem jsonGetKey_err_caught (j : Json) (k : String) (e : PyErr)
    (h : jsonGetKey j k = .error e) : caughtByInverters e = true := by
  unfold jsonGetKey at h
  repeat' split at h
  all_goals
    first
    | (injection h with h2; cases h2; rfl)
    | injection h

theorem getJson_err_caught (o : Option Response) (e : PyErr)
    (h : getJson o = .error e) : caughtByInverters e = true := by
  unfold getJson at h
  repeat' split at h
  all_goals
    first
    | (injection h with h2; cases h2; rfl)
    | injection h

theorem pyIter_err_caught (j : Json) (e : PyErr)
    (h : pyIter j = .error e) : caughtByInverters e = true := by
  unfold pyIter at h
  repeat' split at h
  all_goals
    first
    | (injection h with h2; cases h2; rfl)
    | injection h

theorem pyTimestamp_err_cases (date : Json) (e : PyErr)
    (h : pyTimestamp date = .error e) :
    e = .typeError ∨ e = .overflowError := by
  unfold pyTimestamp at h
  repeat' split at h
  all_goals
    first
    | (injection h with h2; cases h2;
        first
        | exact Or.inl rfl
        | exact Or.inr rfl)
    | injection h

theorem invStep_err_contained (acc : List (Json × Json × String)) (item : Json)
    (e : PyErr) (h : invStep acc item = .error e) :
    caughtByInverters e = true ∨ e = .overflowError := by
  unfold invStep at h
  cases hw : jsonGetKey item ("lastReportWatts") with
  | error e1 =>
    rw [hw] at h
    simp only [except_bind_err] at h
    cases h
    exact Or.inl (jsonGetKey_err_caught _ _ _ hw)
  | ok watts =>
    rw [hw] at h
    simp only [except_bind_ok] at h
    cases hd : jsonGetKey item ("lastReportDate") with
    | error e2 =>
      rw [hd] at h
      simp only [except_bind_err] at h
      cases h
      exact Or.inl (jsonGetKey_err_caught _ _ _ hd)
    | ok date =>
      rw [hd] at h
      simp only [except_bind_ok] at h
      cases ht : pyTimestamp date with
      | error e3 =>
        rw [ht] at h
        simp only [except_bind_err] at h
        cases h
        rcases pyTimestamp_err_cases date e ht with h3 | h3
        · rw [h3]
          exact Or.inl rfl
        · rw [h3]
          exact Or.inr rfl
      | ok ts =>
        rw [ht] at h
        simp only [except_bind_ok] at h
        cases hs : jsonGetKey item ("serialNumber") with
        | error e3 =>
          rw [hs] at h
          simp only [except_bind_err] at h
          cases h
          exact Or.inl (jsonGetKey_err_caught _ _ _ hs)
        | ok serial =>
          rw [hs] at h
          simp only [except_bind_ok] at h
          split at h
          · rw [except_pure_eq] at h
            cases h
          · cases h
            exact Or.inl rfl

theorem invFold_err_contained (items : List Json) :
    ∀ (acc : List (Json × Json × String)) (e : PyErr),
      invFold acc items = .error e →
      caughtByInverters e = true ∨ e = .overflowError := by
  induction items with
  | nil => intro acc e h; simp [invFold] at h
  | cons item rest ih =>
    intro acc e h
    unfold invFold at h
    cases hs : invStep acc item with
    | error e1 =>
      rw [hs] at h
      cases h
      exact invStep_err_contained _ _ _ hs
    | ok acc2 =>
      rw [hs] at h
      exact ih acc2 e h

theorem invBuild_err_contained (st : ReaderState) (e : PyErr)
    (h : invBuild st = .error e) :
    caughtByInverters e = true ∨ e = .overflowError := by
  unfold invBuild at h
  cases hj : getJson st.endpoint_production_inverters with
  | error e1 =>
    rw [hj] at h
    simp only [except_bind_err] at h
    cases h
    exact Or.inl (getJson_err_caught _ _ hj)
  | ok j =>
    rw [hj] at h
    simp only [except_bind_ok] at h
    cases hi : pyIter j with
    | error e2 =>
      rw [hi] at h
      simp only [except_bind_err] at h
      cases h
      exact Or.inl (pyIter_err_caught _ _ hi)
    | ok items =>
      rw [hi] at h
      simp only [except_bind_ok] at h
      exact invFold_err_contained items [] e h

end Envoy

namespace Envoy

/-- Counterexample to claim C5 as stated: a decodable production.json
payload that simply lacks the "storage" key makes battery_storage() raise
KeyError (the source's try-block only catches JSONDecodeError), instead
of returning an unavailable result. -/
theorem C5_battery_missing_storage_counterexample :
    battery_storage { stBase with
        endpoint_production_json_results :=
          some ⟨200, ("pj"), Except.ok (Json.obj [])⟩ } = .error .keyError := rfl

/-- Claim C5 (amended): every malformation of the cached inverter payload
in the classes the source's except tuple covers (undecodable JSON,
absent keys, wrong types, wrong nesting) makes inverters_production()
return None rather than raising: the try-body can only fail with a
caught exception or with the localtime timestamp error, every caught
failure yields None, and an undecodable payload in particular yields
None.  A decodable payload whose lastReportDate is outside localtime's
accepted range is the one malformation that escapes, since
OverflowError/OSError are not in the caught tuple.  battery_storage()
returns None when the cached production.json is undecodable, but a
decoded payload lacking the expected storage[0] structure propagates a
lookup error rather than returning unavailable. -/
theorem C5_malformed_inverter_battery_tolerance :
    (∀ st : ReaderState,
      (∃ v, inverters_production st = .ok v) ∨
        inverters_production st = .error .overflowError) ∧
    (∀ (st : ReaderState) (e : PyErr),
      invBuild st = .error e → caughtByInverters e = true →
      inverters_production st = .ok .vnone) ∧
    (∀ (st : ReaderState) (r : Response),
      st.endpoint_production_inverters = some r → r.body = .error () →
      inverters_production st = .ok .vnone) ∧
    (∀ (st : ReaderState) (r : Response),
      st.endpoint_type = some ENVOY_MODEL_S →
      st.endpoint_production_json_results = some r → r.body = .error () →
      battery_storage st = .ok .vnone) := by
  refine ⟨?_, ?_, ?_, ?_⟩
  · intro st
    unfold inverters_production
    by_cases hg : st.get_inverters = false
    · exact Or.inl ⟨.vnone, by simp [hg]⟩
    · cases hb : invBuild st with
      | ok entries => exact Or.inl ⟨.vdict entries, by simp [hg, hb]⟩
      | error e =>
        rcases invBuild_err_contained st e hb with hc | hc
        · exact Or.inl ⟨.vnone, by simp [hg, hb, hc]⟩
        · subst hc
          exact Or.inr (by simp [hg, hb, caughtByInverters])
  · intro st e hb hc
    unfold inverters_production
    by_cases hg : st.get_inverters = false
    · simp [hg]
    · simp [hg, hb, hc]
  · intro st r hr hbody
    unfold inverters_production
    by_cases hg : st.get_inverters = false
    · simp [hg]
    · have hb : invBuild st = .error .jsonDecodeError := by
        unfold invBuild getJson
        rw [hr]
        simp [hbody, except_bind_err]
      simp [hg, hb, caughtByInverters]
  · intro st r hmodel hpj hbody
    unfold battery_storage
    have h1 : ¬(st.endpoint_type = some ENVOY_MODEL_C ∨
        st.endpoint_type = some ENVOY_MODEL_LEGACY) := by
      rw [hmodel]
      simp [ENVOY_MODEL_S, ENVOY_MODEL_C, ENVOY_MODEL_LEGACY]
    simp [h1, hpj, hbody]

/-- C5 witness state: a decodable inverter payload whose single item
lacks every expected key (absent-key malformation). -/
def stInvMissingKeys : ReaderState :=
  { stBase with
      get_inverters := true
      endpoint_production_inverters :=
        some ⟨200, ("inv"), Except.ok (Json.arr [Json.obj []])⟩ }

/-- C5 witness state: an undecodable inverter payload. -/
def stInvBadJson : ReaderState :=
  { stBase with
      get_inverters := true
      endpoint_production_inverters :=
        some ⟨200, ("inv"), Except.error ()⟩ }

/-- C5 witness state: a well-typed inverter item whose lastReportDate is
far outside localtime's range. -/
def stInvOverflow : ReaderState :=
  { stBase with
      get_inverters := true
      endpoint_production_inverters :=
        some ⟨200, ("inv"), Except.ok (Json.arr [Json.obj
          [(("serialNumber"), Json.str ("s1")),
            (("lastReportWatts"), Json.num 5),
            (("lastReportDate"), Json.num 10000000000000000000000000)]])⟩ }

/-- Witness for C5 (amended) at concrete malformed cached payloads. -/
theorem C5_malformed_inverter_battery_tolerance_witness :
    invBuild stInvMissingKeys = .error .keyError ∧
    inverters_production stInvMissingKeys = .ok .vnone ∧
    inverters_production stInvBadJson = .ok .vnone ∧
    battery_storage { stBase with
        endpoint_production_json_results :=
          some ⟨200, ("x"), Except.error ()⟩ } = .ok .vnone ∧
    ((∃ v, inverters_production stInvOverflow = .ok v) ∨
      inverters_production stInvOverflow = .error .overflowError) := by
  refine ⟨rfl, ?_, ?_, ?_, ?_⟩
  · exact C5_malformed_inverter_battery_tolerance.2.1 stInvMissingKeys
      .keyError rfl rfl
  · exact C5_malformed_inverter_battery_tolerance.2.2.1 stInvBadJson
      ⟨200, ("inv"), Except.error ()⟩ rfl rfl
  · exact C5_malformed_inverter_battery_tolerance.2.2.2 _
      ⟨200, ("x"), Except.error ()⟩ rfl rfl rfl
  · exact C5_malformed_inverter_battery_tolerance.1 stInvOverflow

end Envoy

namespace Envoy

/-- Counterexample to claim C8 as stated: re.search takes the first match
in the page, so a legacy page that contains the literal fragment
"<td>Today</td>\n<td>1.25 kWh</td>" but has an earlier Today row
("<td>Today</td>\n<td>2 Wh</td>") makes daily_production() return 2, not
1250. -/
theorem C8_earlier_today_row_counterexample :
    daily_production { stBase with
        endpoint_type := some ENVOY_MODEL_LEGACY
        endpoint_production_results :=
          some ⟨200,
            ("<td>Today</td>\n<td>2 Wh</td>\n<td>Today</td>\n<td>1.25 kWh</td>"),
            Except.error ()⟩ } none = .ok (.vint 2) ∧
    ("<td>Today</td>\n<td>2 Wh</td>\n") ++
        ("<td>Today</td>\n<td>1.25 kWh</td>") =
      ("<td>Today</td>\n<td>2 Wh</td>\n<td>Today</td>\n<td>1.25 kWh</td>") ∧
    (2 : ℤ) ≠ 1250 :=
  ⟨rfl, rfl, by decide⟩

/-- Claim C8 (amended): for a legacy-model reader whose cached production
page's first DAY_PRODUCTION_REGEX match captures amount "1.25" and unit
"kWh" — in particular a page consisting of the literal fragment
"<td>Today</td>\n<td>1.25 kWh</td>", which is such a match —
daily_production() returns 1250 (the kWh value scaled by 1000 and
truncated to an integer). -/
theorem C8_legacy_daily_production_scrape (st : ReaderState) (r : Response)
    (hmodel : st.endpoint_type = some ENVOY_MODEL_LEGACY)
    (hres : st.endpoint_production_results = some r)
    (hmatch : searchDay r.text.data = some (("1.25"), ("kWh"))) :
    daily_production st none = .ok (.vint 1250) ∧
    searchDay (("<td>Today</td>\n<td>1.25 kWh</td>").data) =
      some (("1.25"), ("kWh")) := by
  have hne1 : st.endpoint_type ≠ some ENVOY_MODEL_S := by rw [hmodel]; decide
  have hne2 : st.endpoint_type ≠ some ENVOY_MODEL_C := by rw [hmodel]; decide
  have h0 : parseAmount ("1.25") = mkRat 125 100 := by decide
  have h1 : scaleDaily (parseAmount ("1.25")) ("kWh") = (1250 : ℚ) := by
    rw [h0]
    unfold scaleDaily
    rw [if_pos (show (("kWh") : String) = ("kWh") from rfl)]
    rw [Rat.mkRat_eq_divInt, Rat.divInt_eq_div]
    norm_num
  have h2 : pyInt (1250 : ℚ) = 1250 := by decide
  constructor
  · unfold daily_production intVal pyIntOfJson
    simp [hmodel, hne1, hne2, hres, hmatch, h1, h2,
      ENVOY_MODEL_S, ENVOY_MODEL_C, ENVOY_MODEL_LEGACY]
  · decide

/-- Witness for C8 (amended): the page consisting exactly of the literal
fragment yields 1250. -/
theorem C8_legacy_daily_production_scrape_witness :
    searchDay (("<td>Today</td>\n<td>1.25 kWh</td>").data) =
      some (("1.25"), ("kWh")) ∧
    daily_production { stBase with
        endpoint_type := some ENVOY_MODEL_LEGACY
        endpoint_production_results :=
          some ⟨200, ("<td>Today</td>\n<td>1.25 kWh</td>"),
            Except.error ()⟩ } none = .ok (.vint 1250) := by
  have hm : searchDay (("<td>Today</td>\n<td>1.25 kWh</td>").data) =
      some (("1.25"), ("kWh")) := by decide
  exact ⟨hm,
    (C8_legacy_daily_production_scrape _
      ⟨200, ("<td>Today</td>\n<td>1.25 kWh</td>"), Except.error ()⟩
      rfl rfl hm).1⟩

end Envoy
